import Mathlib

/-!
Verification of `app/services/food_api.py` (biofl1411/food_api).

The service is embedded shallowly: every network call site is replaced by an
explicit `TierResponse` argument (the decoded reply of that provider, a
non-success status, or a raised exception), and the pure parsing, filtering,
deduplication, pagination and tier-orchestration logic is translated function
by function.  Python/pydantic semantics that the code relies on (dict `.get`,
truthiness, `int(...)` conversion, substring tests, `str.lower`, `str.split`,
`str.strip`, stable `list.sort(..., reverse=True)`) are modelled by the
kernel-computable helpers below.

Modelling notes, fixed once here:
* JSON numbers are modelled as integers (no claim touches fractional values).
* A record field fed from `item.get(key, "")` into a `str`-typed pydantic
  field is modelled by `rowStr?`: a missing key gives `""`, a string value
  gives itself, and any other JSON value fails validation, which the
  enclosing `try/except` turns into the parser's empty result.
* Python `int` arguments `page`/`per_page` are modelled as `Nat`; every claim
  constrains them to `page ≥ 1`, `per_page ≥ 1`, where Python slice indices
  are non-negative and agree with `List.drop`/`List.take`.
* Optional string fields of the pydantic models default to `None`; no modelled
  code path distinguishes `None` from `""`, so both are modelled as `""`.
-/

/-- Python `str.lower()` (code-point by code-point, identity on Hangul). -/
def lowerStr (s : String) : String := ⟨s.data.map Char.toLower⟩

/-- `charsPre a b` is true when `a` is a prefix of `b`. -/
def charsPre : List Char → List Char → Bool
  | [], _ => true
  | _ :: _, [] => false
  | a :: as, b :: bs => a == b && charsPre as bs

/-- `charsInfix sub l` is true when `sub` occurs contiguously in `l`. -/
def charsInfix (sub : List Char) : List Char → Bool
  | [] => sub.isEmpty
  | b :: bs => charsPre sub (b :: bs) || charsInfix sub bs

/-- Python `sub in s` on strings (empty `sub` always matches). -/
def pyIn (sub s : String) : Bool := charsInfix sub.data s.data

/-- Python string comparison `a <= b`: lexicographic by code point. -/
def charsLe : List Char → List Char → Bool
  | [], _ => true
  | _ :: _, [] => false
  | a :: as, b :: bs => decide (a.toNat < b.toNat) || (a == b && charsLe as bs)

/-- Python `a <= b` on strings. -/
def pyStrLe (a b : String) : Bool := charsLe a.data b.data

/-- Python `str.strip()` (whitespace from both ends). -/
def trimChars (cs : List Char) : List Char :=
  ((cs.dropWhile Char.isWhitespace).reverse.dropWhile Char.isWhitespace).reverse

/-- Python `str.split(',')`: split at every comma, keeping empty pieces. -/
def splitComma : List Char → List (List Char)
  | [] => [[]]
  | c :: cs =>
    if c == ',' then [] :: splitComma cs
    else
      match splitComma cs with
      | [] => [[c]]
      | piece :: rest => (c :: piece) :: rest

/-- `[r.strip() for r in region.split(',') if r.strip()]` from the region
filters: comma-separated pieces, stripped, empty pieces dropped. -/
def regionTokens (region : String) : List (List Char) :=
  ((splitComma region.data).map trimChars).filter (fun t => !t.isEmpty)

/-- Digits of a Python integer literal: nonempty, single underscores allowed
strictly between digits. -/
def pyDigits : List Char → Nat → Option Nat
  | [], acc => some acc
  | '_' :: c :: rest, acc =>
    if c.isDigit then pyDigits rest (acc * 10 + (c.toNat - 48)) else none
  | ['_'], _ => none
  | c :: rest, acc =>
    if c.isDigit then pyDigits rest (acc * 10 + (c.toNat - 48)) else none

/-- Python `int(s)` on a string: optional surrounding whitespace, optional
sign, digits; anything else raises `ValueError` (`none`). -/
def pyStrToInt? (s : String) : Option Int :=
  match trimChars s.data with
  | '-' :: c :: rest =>
    if c.isDigit then (pyDigits (c :: rest) 0).map (fun n => -(n : Int)) else none
  | '+' :: c :: rest =>
    if c.isDigit then (pyDigits (c :: rest) 0).map (fun n => (n : Int)) else none
  | c :: rest =>
    if c.isDigit then (pyDigits (c :: rest) 0).map (fun n => (n : Int)) else none
  | [] => none

/-- Decoded JSON payloads.  Numbers are modelled as integers. -/
inductive JsonVal where
  | null
  | bool (b : Bool)
  | num (n : Int)
  | str (s : String)
  | arr (xs : List JsonVal)
  | obj (fields : List (String × JsonVal))

/-- First binding of `key` in a decoded JSON object (JSON objects decoded by
Python have unique keys). -/
def lookupField : List (String × JsonVal) → String → Option JsonVal
  | [], _ => none
  | (k, v) :: rest, key => if k == key then some v else lookupField rest key

/-- Python `data.get(key, default)`: `none` models the `AttributeError`
raised when `data` is not a dict, which the enclosing `try/except` catches. -/
def dictGet? (data : JsonVal) (key : String) (dflt : JsonVal) : Option JsonVal :=
  match data with
  | .obj fields =>
    match lookupField fields key with
    | some v => some v
    | none => some dflt
  | _ => none

/-- Python `int(v)`: integers pass through, booleans count as 0/1, strings
are parsed, anything else raises (`none`). -/
def pyToInt? (v : JsonVal) : Option Int :=
  match v with
  | .num n => some n
  | .bool b => some (if b then 1 else 0)
  | .str s => pyStrToInt? s
  | _ => none

/-- Python truthiness of a decoded JSON value. -/
def pyTruthy (v : JsonVal) : Bool :=
  match v with
  | .null => false
  | .bool b => b
  | .num n => decide (n ≠ 0)
  | .str s => !s.isEmpty
  | .arr xs => !xs.isEmpty
  | .obj fields => !fields.isEmpty

/-- The `if isinstance(items_data, dict): items_data = [items_data]`
normalization followed by `for item in items_data`: a single object becomes a
one-element list, a list iterates its elements, and any other truthy value
makes the loop body raise on its first field access (`none`). -/
def rowList? (v : JsonVal) : Option (List JsonVal) :=
  match v with
  | .obj fields => some [.obj fields]
  | .arr xs => some xs
  | _ => none

/-- `item.get(key, dflt)` feeding a `str`-typed pydantic field: a missing key
yields `dflt`, a string value yields itself, and any other value fails model
validation, raising inside the enclosing `try` (`none`). -/
def rowStrD? (row : JsonVal) (key dflt : String) : Option String :=
  match row with
  | .obj fields =>
    match lookupField fields key with
    | none => some dflt
    | some (.str s) => some s
    | some _ => none
  | _ => none

/-- `item.get(key, "")` feeding a `str`-typed pydantic field. -/
def rowStr? (row : JsonVal) (key : String) : Option String := rowStrD? row key ""

/-- A payload value feeding the `int`-typed `total_count` pydantic field
directly (only `_parse_food_product_response` does this): integers and
numeric strings are accepted, anything else fails validation. -/
def pydanticInt? (v : JsonVal) : Option Int :=
  match v with
  | .num n => some n
  | .str s => pyStrToInt? s
  | _ => none

/-- Python `a or b` on the all-string fields of this code base. -/
def pyOrStr (a b : String) : String := if a.isEmpty then b else a

/-- Stable insertion into a list that is sorted descending by `key`. -/
def insertDescBy {α : Type} (key : α → String) (x : α) : List α → List α
  | [] => [x]
  | y :: ys =>
    if pyStrLe (key y) (key x) then x :: y :: ys else y :: insertDescBy key x ys

/-- Python `items.sort(key=..., reverse=True)`: the unique stable sort,
descending by `key` (equal keys keep their original relative order). -/
def sortDescBy {α : Type} (key : α → String) : List α → List α
  | [] => []
  | x :: xs => insertDescBy key x (sortDescBy key xs)

/-! ## Canonical entity model (`FoodItem`, `CompanyItem`, result envelopes)

The numeric nutrition fields of `FoodItem` (`calories`, `carbohydrate`, …)
are omitted: no modelled code path ever sets or reads them.  Every remaining
field is a string; `""` stands for an unset optional field. -/

structure FoodItem where
  food_name : String := ""
  food_code : String := ""
  category : String := ""
  serving_size : String := ""
  manufacturer : String := ""
  report_no : String := ""
  raw_materials : String := ""
  license_no : String := ""
  permit_date : String := ""
  expiry_date : String := ""
  shelf_life_days : String := ""
  usage : String := ""
  purpose : String := ""
  product_form : String := ""
  packaging : String := ""
  production_status : String := ""
  high_calorie_food : String := ""
  child_certified : String := ""
  last_update : String := ""
  api_source : String := ""
deriving DecidableEq

structure CompanyItem where
  company_name : String := ""
  license_no : String := ""
  business_type : String := ""
  representative : String := ""
  address : String := ""
  region : String := ""
  status : String := ""
  license_date : String := ""
  phone : String := ""
  institution : String := ""
  api_source : String := ""
deriving DecidableEq

structure FoodSearchResult where
  total_count : Int
  page : Nat
  per_page : Nat
  items : List FoodItem
deriving DecidableEq

structure CompanySearchResult where
  total_count : Int
  page : Nat
  per_page : Nat
  items : List CompanyItem
deriving DecidableEq

structure RepHistoryItem where
  representative : String := ""
  change_date : String := ""
  change_type : String := ""
  license_no : String := ""
deriving DecidableEq

structure RepHistoryResult where
  company_name : String
  total_count : Int
  items : List RepHistoryItem
deriving DecidableEq

structure LicenseChangeItem where
  company_name : String := ""
  business_type : String := ""
  license_no : String := ""
  phone : String := ""
  address : String := ""
  change_date : String := ""
  before_content : String := ""
  after_content : String := ""
  change_reason : String := ""
deriving DecidableEq

structure LicenseChangeResult where
  company_name : String
  total_count : Int
  items : List LicenseChangeItem
deriving DecidableEq

/-! ## Shared parsing prefix of the foodsafetykorea services -/

/-- Shared prefix of every foodsafetykorea parser:
`service_data = data.get(svc, {})`,
`total_count = int(service_data.get("total_count", "0"))`,
`items_data = service_data.get("row", [])`, the falsy-row early return, and
the single-object-to-list normalization.  `none` collapses the exception path
and the falsy-row early return, which produce the same empty result in every
parser. -/
def fskEnvelope (svc : String) (data : JsonVal) : Option (Int × List JsonVal) := do
  let serviceData ← dictGet? data svc (.obj [])
  let totalVal ← dictGet? serviceData "total_count" (.str "0")
  let totalCount ← pyToInt? totalVal
  let rowsVal ← dictGet? serviceData "row" (.arr [])
  if pyTruthy rowsVal then
    let rows ← rowList? rowsVal
    pure (totalCount, rows)
  else
    none

/-- The `companies_dict` deduplication loop shared by three company parsers:
rows whose `BSSH_NM` is empty or already seen are dropped, first occurrence
wins (Python dicts preserve insertion order). -/
def dedupCompanyRows (build : JsonVal → String → Option CompanyItem) :
    List JsonVal → List String → Option (List CompanyItem)
  | [], _ => some []
  | row :: rest, seen => do
    let name ← rowStr? row "BSSH_NM"
    if name ≠ "" ∧ name ∉ seen then
      let item ← build row name
      let tail ← dedupCompanyRows build rest (name :: seen)
      pure (item :: tail)
    else
      dedupCompanyRows build rest seen

/-! ## Company response parsers -/

/-- Row of `_parse_company_response` (data.go.kr company search). -/
def dataGoKrCompanyRow? (row : JsonVal) (name : String) : Option CompanyItem := do
  let license_no ← rowStr? row "PRDLST_REPORT_NO"
  let business_type ← rowStrD? row "PRDLST_DCNM" "식품"
  let addr ← rowStr? row "ADDR"
  let address ← if addr.isEmpty then rowStr? row "SITE_ADDR" else pure addr
  pure { company_name := name, license_no, business_type, address,
         status := "운영", api_source := "공공데이터" }

/-- `_parse_company_response`: data.go.kr company payloads.  The body's
`totalCount` is read but unused; the result's `total_count` is the number of
deduplicated companies and `items` is truncated to `per_page`. -/
def parse_company_response (data : JsonVal) (page per_page : Nat) :
    CompanySearchResult :=
  let parsed : Option (List CompanyItem) := do
    let body ← dictGet? data "body" (.obj [])
    let itemsVal ← dictGet? body "items" (.arr [])
    if pyTruthy itemsVal then
      let rows ← rowList? itemsVal
      dedupCompanyRows dataGoKrCompanyRow? rows []
    else
      none
  match parsed with
  | some items =>
    { total_count := items.length, page, per_page, items := items.take per_page }
  | none => { total_count := 0, page, per_page, items := [] }

/-- Row of `_parse_food_safety_company_response` (I1220).  Note: no check on
`BSSH_NM`; rows with an empty company name are retained. -/
def i1220CompanyRow? (row : JsonVal) : Option CompanyItem := do
  let company_name ← rowStr? row "BSSH_NM"
  let license_no ← rowStr? row "LCNS_NO"
  let business_type ← rowStr? row "INDUTY_NM"
  let representative ← rowStr? row "PRSDNT_NM"
  let address ← rowStr? row "LOCP_ADDR"
  let license_date ← rowStr? row "PRMS_DT"
  let phone ← rowStr? row "TELNO"
  let institution ← rowStr? row "INSTT_NM"
  pure { company_name, license_no, business_type, representative, address,
         license_date, phone, institution, status := "운영",
         api_source := "식품안전나라" }

/-- `_parse_food_safety_company_response`: I1220 company payloads.  The
result's `total_count` is the provider-reported count; `items` holds every
row of the payload, untruncated. -/
def parse_food_safety_company_response (data : JsonVal) (page per_page : Nat) :
    CompanySearchResult :=
  match (do
      let (totalCount, rows) ← fskEnvelope "I1220" data
      let items ← rows.mapM i1220CompanyRow?
      pure (totalCount, items)) with
  | some (totalCount, items) => { total_count := totalCount, page, per_page, items }
  | none => { total_count := 0, page, per_page, items := [] }

/-- Row of `_parse_health_food_company_response` (I2860). -/
def i2860CompanyRow? (row : JsonVal) (name : String) : Option CompanyItem := do
  let license_no ← rowStr? row "LCNS_NO"
  let business_type ← rowStrD? row "INDUTY_CD_NM" "건강기능식품"
  let address ← rowStr? row "SITE_ADDR"
  let phone ← rowStr? row "TELNO"
  pure { company_name := name, license_no, business_type, address, phone,
         status := "운영", api_source := "식품안전나라" }

/-- `_parse_health_food_company_response`: I2860 company payloads.  The
provider count is parsed (a malformed one still raises) but the result's
`total_count` is the number of deduplicated companies; `items` is
untruncated. -/
def parse_health_food_company_response (data : JsonVal) (page per_page : Nat) :
    CompanySearchResult :=
  match (do
      let (_, rows) ← fskEnvelope "I2860" data
      dedupCompanyRows i2860CompanyRow? rows []) with
  | some items => { total_count := items.length, page, per_page, items }
  | none => { total_count := 0, page, per_page, items := [] }

/-- Row of `_parse_livestock_company_response` (I1300). -/
def i1300CompanyRow? (row : JsonVal) (name : String) : Option CompanyItem := do
  let license_no ← rowStr? row "LCNS_NO"
  let representative ← rowStr? row "PRSDNT_NM"
  let siteAddr ← rowStr? row "SITE_ADDR"
  let address ← if siteAddr.isEmpty then rowStr? row "LOCP_ADDR" else pure siteAddr
  let phone ← rowStr? row "TELNO"
  let license_date ← rowStr? row "PRMS_DT"
  pure { company_name := name, license_no, business_type := "축산",
         representative, address, phone, license_date, status := "운영",
         api_source := "식품안전나라(I1300)" }

/-- `_parse_livestock_company_response`: I1300 company payloads.  The
result's `total_count` is the provider-reported count; `items` is the
deduplicated row list, untruncated. -/
def parse_livestock_company_response (data : JsonVal) (page per_page : Nat) :
    CompanySearchResult :=
  match (do
      let (totalCount, rows) ← fskEnvelope "I1300" data
      let items ← dedupCompanyRows i1300CompanyRow? rows []
      pure (totalCount, items)) with
  | some (totalCount, items) => { total_count := totalCount, page, per_page, items }
  | none => { total_count := 0, page, per_page, items := [] }

/-! ## Product response parsers -/

/-- Row of `_parse_food_product_response` (data.go.kr product search). -/
def dataGoKrFoodRow? (row : JsonVal) : Option FoodItem := do
  let food_name ← rowStr? row "PRDLST_NM"
  let food_code ← rowStr? row "PRDLST_REPORT_NO"
  let shap ← rowStr? row "PRDT_SHAP_CD_NM"
  let category ← if shap.isEmpty then rowStr? row "PRDLST_DCNM" else pure shap
  let serving_size ← rowStr? row "CSTDY_MTHD"
  let manufacturer ← rowStr? row "BSSH_NM"
  let report_no ← rowStr? row "PRDLST_REPORT_NO"
  let raw_materials ← rowStr? row "RAWMTRL_NM"
  pure { food_name, food_code, category, serving_size,
         manufacturer, report_no, raw_materials, api_source := "공공데이터" }

/-- `_parse_food_product_response`: data.go.kr product payloads.  The
result's `total_count` is the body's `totalCount` (0 when absent); `items`
holds every row, untruncated. -/
def parse_food_product_response (data : JsonVal) (page per_page : Nat) :
    FoodSearchResult :=
  match (do
      let body ← dictGet? data "body" (.obj [])
      let totalVal ← dictGet? body "totalCount" (.num 0)
      let totalCount ← pydanticInt? totalVal
      let itemsVal ← dictGet? body "items" (.arr [])
      if pyTruthy itemsVal then
        let rows ← rowList? itemsVal
        let items ← rows.mapM dataGoKrFoodRow?
        pure (totalCount, items)
      else
        none) with
  | some (totalCount, items) => { total_count := totalCount, page, per_page, items }
  | none => { total_count := 0, page, per_page, items := [] }

/-- Row of `_parse_food_safety_product_response` (I1250). -/
def i1250FoodRow? (row : JsonVal) : Option FoodItem := do
  let food_name ← rowStr? row "PRDLST_NM"
  let food_code ← rowStr? row "PRDLST_REPORT_NO"
  let category ← rowStr? row "PRDLST_DCNM"
  let manufacturer ← rowStr? row "BSSH_NM"
  let report_no ← rowStr? row "PRDLST_REPORT_NO"
  let license_no ← rowStr? row "LCNS_NO"
  let permit_date ← rowStr? row "PRMS_DT"
  let expiry_date ← rowStr? row "POG_DAYCNT"
  let shelf_life_days ← rowStr? row "QLITY_MNTNC_TMLMT_DAYCNT"
  let usage ← rowStr? row "USAGE"
  let purpose ← rowStr? row "PRPOS"
  let product_form ← rowStr? row "DISPOS"
  let packaging ← rowStr? row "FRMLC_MTRQLT"
  let production_status ← rowStr? row "PRODUCTION"
  let high_calorie_food ← rowStr? row "HIENG_LNTRT_DVS_NM"
  let child_certified ← rowStr? row "CHILD_CRTFC_YN"
  let last_update ← rowStr? row "LAST_UPDT_DTM"
  pure { food_name, food_code, category, manufacturer, report_no, license_no,
         permit_date, expiry_date, shelf_life_days, usage, purpose,
         product_form, packaging, production_status, high_calorie_food,
         child_certified, last_update, api_source := "식품안전나라" }

/-- `_parse_food_safety_product_response`: I1250 product payloads.  The
result's `total_count` is the provider-reported count; `items` holds every
row, untruncated. -/
def parse_food_safety_product_response (data : JsonVal) (page per_page : Nat) :
    FoodSearchResult :=
  match (do
      let (totalCount, rows) ← fskEnvelope "I1250" data
      let items ← rows.mapM i1250FoodRow?
      pure (totalCount, items)) with
  | some (totalCount, items) => { total_count := totalCount, page, per_page, items }
  | none => { total_count := 0, page, per_page, items := [] }

/-- Row of `_parse_c002_product_response` (C002, raw-material detail). -/
def c002FoodRow? (row : JsonVal) : Option FoodItem := do
  let food_name ← rowStr? row "PRDLST_NM"
  let food_code ← rowStr? row "PRDLST_REPORT_NO"
  let category ← rowStr? row "PRDLST_DCNM"
  let manufacturer ← rowStr? row "BSSH_NM"
  let report_no ← rowStr? row "PRDLST_REPORT_NO"
  let raw_materials ← rowStr? row "RAWMTRL_NM"
  let license_no ← rowStr? row "LCNS_NO"
  let permit_date ← rowStr? row "PRMS_DT"
  let last_update ← rowStr? row "CHNG_DT"
  pure { food_name, food_code, category, manufacturer, report_no,
         raw_materials, license_no, permit_date, last_update,
         api_source := "식품안전나라(C002)" }

/-- `_parse_c002_product_response`: C002 product payloads. -/
def parse_c002_product_response (data : JsonVal) (page per_page : Nat) :
    FoodSearchResult :=
  match (do
      let (totalCount, rows) ← fskEnvelope "C002" data
      let items ← rows.mapM c002FoodRow?
      pure (totalCount, items)) with
  | some (totalCount, items) => { total_count := totalCount, page, per_page, items }
  | none => { total_count := 0, page, per_page, items := [] }

/-- Row of `_parse_c003_product_response` (C003, health-food raw material). -/
def c003FoodRow? (row : JsonVal) : Option FoodItem := do
  let food_name ← rowStr? row "PRDLST_NM"
  let food_code ← rowStr? row "PRDLST_REPORT_NO"
  let category ← rowStrD? row "PRDLST_DCNM" "건강기능식품"
  let manufacturer ← rowStr? row "BSSH_NM"
  let report_no ← rowStr? row "PRDLST_REPORT_NO"
  let raw_materials ← rowStr? row "RAWMTRL_NM"
  let license_no ← rowStr? row "LCNS_NO"
  let permit_date ← rowStr? row "PRMS_DT"
  let last_update ← rowStr? row "CHNG_DT"
  pure { food_name, food_code, category, manufacturer, report_no,
         raw_materials, license_no, permit_date, last_update,
         api_source := "식품안전나라(C003)" }

/-- `_parse_c003_product_response`: C003 product payloads. -/
def parse_c003_product_response (data : JsonVal) (page per_page : Nat) :
    FoodSearchResult :=
  match (do
      let (totalCount, rows) ← fskEnvelope "C003" data
      let items ← rows.mapM c003FoodRow?
      pure (totalCount, items)) with
  | some (totalCount, items) => { total_count := totalCount, page, per_page, items }
  | none => { total_count := 0, page, per_page, items := [] }

/-- Row of `_parse_c006_product_response` (C006, health-food products). -/
def c006FoodRow? (row : JsonVal) : Option FoodItem := do
  let food_name ← rowStr? row "PRDLST_NM"
  let food_code ← rowStr? row "PRDLST_REPORT_NO"
  let category ← rowStrD? row "PRDLST_DCNM" "건강기능식품"
  let manufacturer ← rowStr? row "BSSH_NM"
  let report_no ← rowStr? row "PRDLST_REPORT_NO"
  let license_no ← rowStr? row "LCNS_NO"
  let permit_date ← rowStr? row "PRMS_DT"
  let last_update ← rowStr? row "CHNG_DT"
  pure { food_name, food_code, category, manufacturer, report_no, license_no,
         permit_date, last_update, api_source := "식품안전나라(C006)" }

/-- `_parse_c006_product_response`: C006 product payloads. -/
def parse_c006_product_response (data : JsonVal) (page per_page : Nat) :
    FoodSearchResult :=
  match (do
      let (totalCount, rows) ← fskEnvelope "C006" data
      let items ← rows.mapM c006FoodRow?
      pure (totalCount, items)) with
  | some (totalCount, items) => { total_count := totalCount, page, per_page, items }
  | none => { total_count := 0, page, per_page, items := [] }

/-! ## History parsers -/

/-- Row of `_parse_license_change_i2859`. -/
def i2859Row? (row : JsonVal) : Option LicenseChangeItem := do
  let company_name ← rowStr? row "BSSH_NM"
  let business_type ← rowStr? row "INDUTY_CD_NM"
  let license_no ← rowStr? row "LCNS_NO"
  let phone ← rowStr? row "TELNO"
  let address ← rowStr? row "SITE_ADDR"
  let change_date ← rowStr? row "CHNG_DT"
  let before_content ← rowStr? row "CHNG_BF_CN"
  let after_content ← rowStr? row "CHNG_AF_CN"
  let change_reason ← rowStr? row "CHNG_PRVNS"
  pure { company_name, business_type, license_no, phone, address,
         change_date, before_content, after_content, change_reason }

/-- `_parse_license_change_i2859`: I2859 license-change payloads.  Items are
sorted by `change_date` descending (`items.sort(key=..., reverse=True)`);
`total_count` is the provider-reported count. -/
def parse_license_change_i2859 (data : JsonVal) (company_name : String) :
    LicenseChangeResult :=
  match (do
      let (totalCount, rows) ← fskEnvelope "I2859" data
      let items ← rows.mapM i2859Row?
      pure (totalCount, items)) with
  | some (totalCount, items) =>
    { company_name, total_count := totalCount,
      items := sortDescBy LicenseChangeItem.change_date items }
  | none => { company_name, total_count := 0, items := [] }

/-- The representative-name candidate of an I2860 row: `PRSDNT_NM`, or the
whole `CHNG_RESON_CN` text when that is empty but mentions `"대표"`. -/
def repNameOf (prsdnt changeReason : String) : String :=
  if prsdnt.isEmpty then
    if pyIn "대표" changeReason then changeReason else prsdnt
  else prsdnt

/-- The per-row extraction of the `_parse_rep_history_i2860` loop before the
`seen_reps` check: `CHNG_RESON_CN`, `CHNG_DT or CHNG_APVL_DT` (short-circuit),
`CHNG_CN`, `PRSDNT_NM`; yields the candidate name, the change date, and the
raw change type. -/
def rowRepFields? (row : JsonVal) : Option (String × String × String) := do
  let changeReason ← rowStr? row "CHNG_RESON_CN"
  let d1 ← rowStr? row "CHNG_DT"
  let change_date ← if d1.isEmpty then rowStr? row "CHNG_APVL_DT" else pure d1
  let changeType ← rowStr? row "CHNG_CN"
  let prsdnt ← rowStr? row "PRSDNT_NM"
  pure (repNameOf prsdnt changeReason, change_date, changeType)

/-- The `history_items` loop of `_parse_rep_history_i2860`: rows whose
candidate name is empty or already in `seen_reps` are skipped, the first
occurrence of each name is kept; `LCNS_NO` is only read for appended rows. -/
def repRows : List JsonVal → List String → Option (List RepHistoryItem)
  | [], _ => some []
  | row :: rest, seen => do
    let (repName, change_date, changeType) ← rowRepFields? row
    if repName ≠ "" ∧ repName ∉ seen then
      let license_no ← rowStr? row "LCNS_NO"
      let tail ← repRows rest (repName :: seen)
      pure ({ representative := repName, change_date,
              change_type := pyOrStr changeType "변경", license_no } :: tail)
    else
      repRows rest seen

/-- The row list of an I2860 rep-history payload: `data.get("I2860", {})`,
`service_data.get("row", [])`, falsy-row early return, single-object
normalization.  This parser never reads `total_count`. -/
def i2860HistoryRows? (data : JsonVal) : Option (List JsonVal) := do
  let serviceData ← dictGet? data "I2860" (.obj [])
  let rowsVal ← dictGet? serviceData "row" (.arr [])
  if pyTruthy rowsVal then rowList? rowsVal else none

/-- `_parse_rep_history_i2860`: I2860 change-history payloads.  Deduplicated
by representative name (first occurrence kept), then sorted by `change_date`
descending; `total_count` is the number of retained items. -/
def parse_rep_history_i2860 (data : JsonVal) (company_name : String) :
    RepHistoryResult :=
  match (do
      let rows ← i2860HistoryRows? data
      repRows rows []) with
  | some historyItems =>
    let sorted := sortDescBy RepHistoryItem.change_date historyItems
    { company_name, total_count := sorted.length, items := sorted }
  | none => { company_name, total_count := 0, items := [] }

/-! ## Post-fetch filter -/

/-- `_filter_companies`: keyword (case-insensitive substring of the company
name), region (any comma-separated, stripped, non-empty token a substring of
address or region — skipped entirely when no token remains), and
business-type (case-insensitive substring) filters; `total_count` is
recomputed as the number of surviving items. -/
def filter_companies (result : CompanySearchResult)
    (region business_type : String) (keyword : String := "") :
    CompanySearchResult :=
  let items0 := result.items
  let items1 :=
    if keyword ≠ "" then
      items0.filter (fun c => pyIn (lowerStr keyword) (lowerStr c.company_name))
    else items0
  let regions := regionTokens region
  let items2 :=
    if region ≠ "" then
      if regions ≠ [] then
        items1.filter (fun c =>
          regions.any (fun r => charsInfix r c.address.data || charsInfix r c.region.data))
      else items1
    else items1
  let items3 :=
    if business_type ≠ "" then
      items2.filter (fun c =>
        pyIn (lowerStr business_type) (lowerStr c.business_type))
    else items2
  { total_count := items3.length, page := result.page,
    per_page := result.per_page, items := items3 }

/-! ## Static fallback catalogs (`_get_sample_*`) -/

/-- One entry of the `sample_companies` literal of `_get_sample_companies`
(every entry sets `status="운영"`, `api_source="샘플"`). -/
def sCompany (name lic bt rep addr reg : String) : CompanyItem :=
  { company_name := name, license_no := lic, business_type := bt,
    representative := rep, address := addr, region := reg,
    status := "운영", api_source := "샘플" }

/-- The `sample_companies` literal of `_get_sample_companies`. -/
def sample_companies : List CompanyItem := [
  sCompany "삼양식품(주)" "19670001" "식품" "김정수" "서울특별시 성북구 삼양로 123" "서울",
  sCompany "농심(주)" "19680002" "식품" "이병학" "서울특별시 동작구 신대방동 456" "서울",
  sCompany "CJ제일제당(주)" "19530004" "식품" "최은석" "서울특별시 중구 을지로 123" "서울",
  sCompany "대상(주)" "19560005" "식품" "임정배" "서울특별시 종로구 종로 456" "서울",
  sCompany "풀무원식품(주)" "19840006" "식품" "이효율" "서울특별시 강남구 테헤란로 789" "서울",
  sCompany "롯데제과(주)" "19670008" "식품" "민명기" "서울특별시 영등포구 양평동 111" "서울",
  sCompany "해태제과(주)" "19680010" "식품" "신정훈" "서울특별시 용산구 한강로 222" "서울",
  sCompany "동서식품(주)" "19680011" "식품" "김광수" "서울특별시 강남구 삼성동 333" "서울",
  sCompany "오뚜기(주)" "19690003" "식품" "함영준" "경기도 안양시 동안구 평촌동 123" "경기",
  sCompany "빙그레(주)" "19670007" "식품" "전창원" "경기도 남양주시 진접읍 456" "경기",
  sCompany "매일유업(주)" "19690012" "식품" "김선희" "경기도 용인시 기흥구 789" "경기",
  sCompany "남양유업(주)" "19640013" "식품" "이광범" "경기도 세종시 세종로 111" "경기",
  sCompany "하림(주)" "19860014" "축산" "김홍국" "전북특별자치도 익산시 왕궁면 789" "전북",
  sCompany "마니커(주)" "19920201" "축산" "박철" "충청남도 천안시 동남구 123" "충남",
  sCompany "선진(주)" "19800202" "축산" "이범권" "경기도 파주시 문산읍 456" "경기",
  sCompany "목우촌(주)" "19840203" "축산" "이상열" "경상북도 영천시 북안면 789" "경북",
  sCompany "도드람푸드(주)" "19950204" "축산" "박광욱" "경기도 안성시 미양면 111" "경기",
  sCompany "체리부로(주)" "19850205" "축산" "정희용" "충청북도 음성군 대소면 222" "충북",
  sCompany "사조팜스(주)" "19900206" "축산" "주지홍" "경상북도 상주시 함창읍 333" "경북",
  sCompany "삼진어묵(주)" "19530020" "식품" "박용준" "부산광역시 영도구 봉래동 123" "부산",
  sCompany "동원F&B(주) 부산공장" "19690021" "식품" "김재철" "부산광역시 사하구 장림동 456" "부산",
  sCompany "팔도(주)" "19830030" "식품" "이영재" "대구광역시 달성군 다사읍 123" "대구",
  sCompany "청정원(주)" "19870040" "식품" "임정배" "충청북도 청주시 흥덕구 123" "충북",
  sCompany "사조대림(주)" "19710041" "식품" "주지홍" "충청남도 아산시 배방읍 456" "충남",
  sCompany "동원F&B(주)" "19690050" "식품" "김재철" "전북특별자치도 익산시 왕궁면 789" "전북",
  sCompany "정식품(주)" "19730060" "식품" "박승주" "경상북도 칠곡군 지천면 123" "경북",
  sCompany "사조해표(주)" "19720070" "식품" "주지홍" "경상남도 창원시 마산회원구 456" "경남",
  sCompany "한국야쿠르트(주)" "19710100" "건강기능식품" "김병진" "서울특별시 서초구 서초동 123" "서울",
  sCompany "종근당건강(주)" "19830101" "건강기능식품" "김영주" "서울특별시 강동구 성내동 456" "서울",
  sCompany "뉴트리(주)" "20000102" "건강기능식품" "강준희" "경기도 성남시 분당구 789" "경기",
  sCompany "고려은단(주)" "19730103" "건강기능식품" "장영호" "서울특별시 강남구 역삼동 111" "서울"]

/-- The filtering chain of `_get_sample_companies` (keyword, region,
business type), before pagination. -/
def sample_companies_filtered (keyword region business_type : String) :
    List CompanyItem :=
  let f0 := sample_companies
  let f1 :=
    if keyword ≠ "" then
      f0.filter (fun c => pyIn (lowerStr keyword) (lowerStr c.company_name))
    else f0
  let regions := regionTokens region
  let f2 :=
    if region ≠ "" then
      if regions ≠ [] then
        f1.filter (fun c =>
          regions.any (fun r => charsInfix r c.address.data || charsInfix r c.region.data))
      else f1
    else f1
  if business_type ≠ "" then
    f2.filter (fun c => pyIn (lowerStr business_type) (lowerStr c.business_type))
  else f2

/-- `_get_sample_companies`: the static company tier — filter, then paginate
with `total_count` the post-filter length. -/
def get_sample_companies (keyword region business_type : String)
    (page per_page : Nat) : CompanySearchResult :=
  let filtered := sample_companies_filtered keyword region business_type
  { total_count := filtered.length, page, per_page,
    items := (filtered.drop ((page - 1) * per_page)).take per_page }

/-- One entry of the `sample_products` literal of
`_get_sample_products_by_company` (every entry sets `api_source="샘플"`). -/
def sProduct (name cat manu rep raw : String) : FoodItem :=
  { food_name := name, category := cat, manufacturer := manu,
    report_no := rep, raw_materials := raw, api_source := "샘플" }

/-- The `sample_products` dict of `_get_sample_products_by_company`. -/
def sample_products : List (String × List FoodItem) := [
  ("농심(주)", [
    sProduct "신라면" "라면" "농심(주)" "NM001" "밀가루, 팜유, 전분, 고춧가루",
    sProduct "안성탕면" "라면" "농심(주)" "NM002" "밀가루, 팜유, 된장분말",
    sProduct "짜파게티" "라면" "농심(주)" "NM003" "밀가루, 팜유, 춘장분말",
    sProduct "너구리" "라면" "농심(주)" "NM004" "밀가루, 팜유, 다시마",
    sProduct "새우깡" "스낵" "농심(주)" "NM005" "밀가루, 새우분말, 팜유",
    sProduct "양파링" "스낵" "농심(주)" "NM006" "밀가루, 양파분말, 팜유",
    sProduct "포테토칩 오리지널" "스낵" "농심(주)" "NM007" "감자, 팜유, 소금"]),
  ("삼양식품(주)", [
    sProduct "삼양라면" "라면" "삼양식품(주)" "SY001" "밀가루, 팜유, 소금",
    sProduct "불닭볶음면" "라면" "삼양식품(주)" "SY002" "밀가루, 팜유, 고춧가루, 캡사이신",
    sProduct "짜짜로니" "라면" "삼양식품(주)" "SY003" "밀가루, 팜유, 춘장",
    sProduct "까르보불닭볶음면" "라면" "삼양식품(주)" "SY004" "밀가루, 팜유, 크림분말",
    sProduct "핵불닭볶음면" "라면" "삼양식품(주)" "SY005" "밀가루, 팜유, 청양고추"]),
  ("오뚜기(주)", [
    sProduct "진라면 순한맛" "라면" "오뚜기(주)" "OT001" "밀가루, 팜유, 소고기분말",
    sProduct "진라면 매운맛" "라면" "오뚜기(주)" "OT002" "밀가루, 팜유, 고춧가루",
    sProduct "참깨라면" "라면" "오뚜기(주)" "OT003" "밀가루, 팜유, 참깨",
    sProduct "오뚜기 카레 순한맛" "즉석조리" "오뚜기(주)" "OT004" "카레분말, 양파, 감자",
    sProduct "3분 짜장" "즉석조리" "오뚜기(주)" "OT005" "춘장, 돼지고기, 양파",
    sProduct "케찹" "소스" "오뚜기(주)" "OT006" "토마토, 설탕, 식초"]),
  ("CJ제일제당(주)", [
    sProduct "햇반" "즉석밥" "CJ제일제당(주)" "CJ001" "쌀, 정제수",
    sProduct "비비고 왕교자" "만두" "CJ제일제당(주)" "CJ002" "밀가루, 돼지고기, 배추",
    sProduct "스팸 클래식" "캔햄" "CJ제일제당(주)" "CJ003" "돼지고기, 전분, 소금",
    sProduct "다시다" "조미료" "CJ제일제당(주)" "CJ004" "소고기엑기스, 소금, MSG",
    sProduct "백설 식용유" "식용유" "CJ제일제당(주)" "CJ005" "대두유"]),
  ("롯데제과(주)", [
    sProduct "초코파이" "과자" "롯데제과(주)" "LT001" "밀가루, 설탕, 초콜릿",
    sProduct "빼빼로" "과자" "롯데제과(주)" "LT002" "밀가루, 초콜릿, 설탕",
    sProduct "꼬깔콘" "스낵" "롯데제과(주)" "LT003" "옥수수, 팜유, 소금",
    sProduct "칸쵸" "과자" "롯데제과(주)" "LT004" "밀가루, 설탕, 초콜릿"]),
  ("빙그레(주)", [
    sProduct "바나나맛우유" "가공유" "빙그레(주)" "BG001" "원유, 설탕, 바나나농축액",
    sProduct "메로나" "아이스크림" "빙그레(주)" "BG002" "정제수, 설탕, 멜론농축액",
    sProduct "투게더" "아이스크림" "빙그레(주)" "BG003" "원유, 설탕, 바닐라향",
    sProduct "요플레" "발효유" "빙그레(주)" "BG004" "원유, 유산균, 설탕"]),
  ("풀무원식품(주)", [
    sProduct "풀무원 두부" "두부" "풀무원식품(주)" "PM001" "대두, 정제수, 응고제",
    sProduct "생면식감 라면" "라면" "풀무원식품(주)" "PM002" "밀가루, 팜유, 소금",
    sProduct "김치" "김치" "풀무원식품(주)" "PM003" "배추, 고춧가루, 젓갈"]),
  ("대상(주)", [
    sProduct "청정원 순창고추장" "장류" "대상(주)" "DS001" "고춧가루, 찹쌀, 메주",
    sProduct "청정원 된장" "장류" "대상(주)" "DS002" "대두, 소금, 밀",
    sProduct "미원" "조미료" "대상(주)" "DS003" "MSG"]),
  ("한국야쿠르트(주)", [
    sProduct "야쿠르트" "발효유" "한국야쿠르트(주)" "YK001" "탈지분유, 유산균, 설탕",
    sProduct "쿠퍼스" "건강음료" "한국야쿠르트(주)" "YK002" "정제수, 비타민, 미네랄"]),
  ("하림(주)", [
    sProduct "하림 IFF 치킨너겟" "닭고기가공품" "하림(주)" "HR001" "닭고기, 밀가루, 빵가루",
    sProduct "하림 닭가슴살" "닭고기" "하림(주)" "HR002" "닭가슴살",
    sProduct "하림 치킨까스" "닭고기가공품" "하림(주)" "HR003" "닭고기, 밀가루, 빵가루",
    sProduct "하림 닭볶음탕용" "닭고기" "하림(주)" "HR004" "닭고기",
    sProduct "하림 더미니 소시지" "소시지" "하림(주)" "HR005" "닭고기, 전분, 소금"]),
  ("마니커(주)", [
    sProduct "마니커 순살치킨" "닭고기가공품" "마니커(주)" "MK001" "닭고기, 밀가루, 전분",
    sProduct "마니커 치킨텐더" "닭고기가공품" "마니커(주)" "MK002" "닭고기, 밀가루, 빵가루",
    sProduct "마니커 닭다리살" "닭고기" "마니커(주)" "MK003" "닭다리살"]),
  ("선진(주)", [
    sProduct "선진 한돈 삼겹살" "돼지고기" "선진(주)" "SJ001" "돼지고기",
    sProduct "선진 한돈 목살" "돼지고기" "선진(주)" "SJ002" "돼지고기",
    sProduct "선진 한돈 앞다리살" "돼지고기" "선진(주)" "SJ003" "돼지고기"]),
  ("목우촌(주)", [
    sProduct "목우촌 뚝심한우" "소고기" "목우촌(주)" "MW001" "한우",
    sProduct "목우촌 주부9단 베이컨" "베이컨" "목우촌(주)" "MW002" "돼지고기, 소금, 향신료",
    sProduct "목우촌 프리미엄 소시지" "소시지" "목우촌(주)" "MW003" "돼지고기, 전분, 소금"]),
  ("도드람푸드(주)", [
    sProduct "도드람 한돈 삼겹살" "돼지고기" "도드람푸드(주)" "DD001" "돼지고기",
    sProduct "도드람 수제 햄" "햄" "도드람푸드(주)" "DD002" "돼지고기, 소금, 향신료",
    sProduct "도드람 프랑크 소시지" "소시지" "도드람푸드(주)" "DD003" "돼지고기, 전분, 소금"]),
  ("체리부로(주)", [
    sProduct "체리부로 닭가슴살" "닭고기" "체리부로(주)" "CB001" "닭가슴살",
    sProduct "체리부로 훈제치킨" "닭고기가공품" "체리부로(주)" "CB002" "닭고기, 소금, 훈연향",
    sProduct "체리부로 닭안심" "닭고기" "체리부로(주)" "CB003" "닭안심"]),
  ("사조팜스(주)", [
    sProduct "사조팜스 통닭다리" "닭고기" "사조팜스(주)" "SP001" "닭다리",
    sProduct "사조팜스 닭볶음탕용" "닭고기" "사조팜스(주)" "SP002" "닭고기",
    sProduct "사조팜스 닭가슴살 슬라이스" "닭고기" "사조팜스(주)" "SP003" "닭가슴살"])]

/-- `_get_sample_products_by_company`: `sample_products.get(company_name, [])`
then pagination with `total_count` the pre-pagination length. -/
def get_sample_products_by_company (company_name : String)
    (page per_page : Nat) : FoodSearchResult :=
  let items := (List.lookup company_name sample_products).getD []
  { total_count := items.length, page, per_page,
    items := (items.drop ((page - 1) * per_page)).take per_page }

/-- The keyword-filtered collection of `_get_sample_foods`: the three
companies' sample products concatenated, keyword matched case-insensitively
against `food_name` or `category`. -/
def sample_foods_filtered (keyword : String) : List FoodItem :=
  let allProducts :=
    (get_sample_products_by_company "농심(주)" 1 100).items ++
    (get_sample_products_by_company "삼양식품(주)" 1 100).items ++
    (get_sample_products_by_company "오뚜기(주)" 1 100).items
  if keyword ≠ "" then
    allProducts.filter (fun p =>
      pyIn (lowerStr keyword) (lowerStr p.food_name) ||
      pyIn (lowerStr keyword) (lowerStr p.category))
  else allProducts

/-- `_get_sample_foods`: filter then paginate, `total_count` the post-filter
length. -/
def get_sample_foods (keyword : String) (page per_page : Nat) :
    FoodSearchResult :=
  let filtered := sample_foods_filtered keyword
  { total_count := filtered.length, page, per_page,
    items := (filtered.drop ((page - 1) * per_page)).take per_page }

/-- One entry of the `sample_history` literal of `_get_sample_rep_history`. -/
def sRep (rep date ty : String) : RepHistoryItem :=
  { representative := rep, change_date := date, change_type := ty }

/-- The `sample_history` dict of `_get_sample_rep_history`. -/
def sample_history : List (String × List RepHistoryItem) := [
  ("삼양식품(주)", [
    sRep "김정수" "2020-03-15" "현재 대표자",
    sRep "김윤" "2015-01-20" "대표자 변경",
    sRep "전중윤" "2008-05-10" "대표자 변경"]),
  ("농심(주)", [
    sRep "이병학" "2021-12-01" "현재 대표자",
    sRep "박준" "2017-03-15" "대표자 변경",
    sRep "신춘호" "2003-07-01" "대표자 변경"]),
  ("CJ제일제당(주)", [
    sRep "최은석" "2022-04-01" "현재 대표자",
    sRep "강신호" "2018-09-01" "대표자 변경"]),
  ("오뚜기(주)", [
    sRep "함영준" "2019-06-01" "현재 대표자",
    sRep "함태호" "1980-01-01" "설립"]),
  ("롯데제과(주)", [
    sRep "민명기" "2021-09-01" "현재 대표자",
    sRep "이재혁" "2017-11-01" "대표자 변경"]),
  ("하림(주)", [
    sRep "김홍국" "2000-01-01" "현재 대표자"]),
  ("빙그레(주)", [
    sRep "전창원" "2019-03-01" "현재 대표자",
    sRep "박영호" "2010-05-01" "대표자 변경"])]

/-- `_get_sample_rep_history`: `sample_history.get(company_name, [])`. -/
def get_sample_rep_history (company_name : String) : RepHistoryResult :=
  let items := (List.lookup company_name sample_history).getD []
  { company_name, total_count := items.length, items }

/-! ## Tier orchestration

Each network call site of the service is replaced by a `TierResponse`
argument: the exception path (network error, timeout, `response.json()`
failure — re-raised by the `_search_*` helper and caught by the
orchestrator's `try/except`), a non-200 status (the helper returns the empty
result), or a decoded 200 payload (the helper returns the parsed result).
An operation of the Python service is total — it always returns a result
object, never an exception — and so are these models. -/

inductive TierResponse where
  | failure
  | badStatus
  | payload (j : JsonVal)

/-- One `_search_*company*` helper under its orchestrator `try`: exception →
caught (`none`), non-200 → empty result, 200 → parsed payload. -/
def companyTierFetch (parse : JsonVal → Nat → Nat → CompanySearchResult)
    (resp : TierResponse) (page per_page : Nat) : Option CompanySearchResult :=
  match resp with
  | .failure => none
  | .badStatus => some { total_count := 0, page, per_page, items := [] }
  | .payload j => some (parse j page per_page)

/-- One tier body of `search_companies`: fetch, keep only a raw non-empty
result, filter it, keep only a non-empty filtered result. -/
def companyTierStep (parse : JsonVal → Nat → Nat → CompanySearchResult)
    (resp : TierResponse) (keyword region business_type : String)
    (page per_page : Nat) : Option CompanySearchResult :=
  match companyTierFetch parse resp page per_page with
  | none => none
  | some result =>
    if result.total_count > 0 then
      let filtered := filter_companies result region business_type keyword
      if filtered.total_count > 0 then some filtered else none
    else none

/-- `search_companies`: livestock tier (I1300, only for `business_type ==
"축산"`), health-food tier (I2860, only for `"건강기능식품"`), general tier
(I1220), then the static sample tier.  `hasKey` is the truthiness of
`food_safety_api_key`. -/
def search_companies (hasKey : Bool)
    (livestockResp healthResp i1220Resp : TierResponse)
    (keyword region business_type : String) (page per_page : Nat) :
    CompanySearchResult :=
  let t1 :=
    if business_type = "축산" ∧ hasKey = true then
      companyTierStep parse_livestock_company_response livestockResp
        keyword region business_type page per_page
    else none
  let t2 :=
    if business_type = "건강기능식품" ∧ hasKey = true then
      companyTierStep parse_health_food_company_response healthResp
        keyword region business_type page per_page
    else none
  let t3 :=
    if hasKey = true then
      companyTierStep parse_food_safety_company_response i1220Resp
        keyword region business_type page per_page
    else none
  ((t1 <|> t2) <|> t3).getD
    (get_sample_companies keyword region business_type page per_page)

/-- One `_search_products_*` helper under its orchestrator `try`. -/
def foodTierFetch (parse : JsonVal → Nat → Nat → FoodSearchResult)
    (resp : TierResponse) (page per_page : Nat) : Option FoodSearchResult :=
  match resp with
  | .failure => none
  | .badStatus => some { total_count := 0, page, per_page, items := [] }
  | .payload j => some (parse j page per_page)

/-- One tier body of the product searches: fetch and keep only a result with
`total_count > 0` (returned as-is, unfiltered and untruncated). -/
def foodTierStep (parse : JsonVal → Nat → Nat → FoodSearchResult)
    (resp : TierResponse) (page per_page : Nat) : Option FoodSearchResult :=
  match foodTierFetch parse resp page per_page with
  | none => none
  | some result => if result.total_count > 0 then some result else none

/-- `search_products_by_company`: C002, C003, C006, I1250, then the static
sample tier.  All four live tiers are gated on `food_safety_api_key`. -/
def search_products_by_company (hasKey : Bool)
    (c002Resp c003Resp c006Resp i1250Resp : TierResponse)
    (company_name : String) (page per_page : Nat) : FoodSearchResult :=
  let t1 := if hasKey then
    foodTierStep parse_c002_product_response c002Resp page per_page else none
  let t2 := if hasKey then
    foodTierStep parse_c003_product_response c003Resp page per_page else none
  let t3 := if hasKey then
    foodTierStep parse_c006_product_response c006Resp page per_page else none
  let t4 := if hasKey then
    foodTierStep parse_food_safety_product_response i1250Resp page per_page else none
  (((t1 <|> t2) <|> t3) <|> t4).getD
    (get_sample_products_by_company company_name page per_page)

/-- `search_foods` (broad keyword food search): the data.go.kr tier (gated on
`api_key_1`), the I1250 tier (gated on `food_safety_api_key`), then the
static sample tier.  Strictly sequential: the first tier reporting
`total_count > 0` is returned unchanged. -/
def search_foods (hasKey1 hasKey2 : Bool)
    (dataGoKrResp i1250Resp : TierResponse)
    (keyword : String) (page per_page : Nat) : FoodSearchResult :=
  let t1 := if hasKey1 then
    foodTierStep parse_food_product_response dataGoKrResp page per_page else none
  let t2 := if hasKey2 then
    foodTierStep parse_food_safety_product_response i1250Resp page per_page else none
  (t1 <|> t2).getD (get_sample_foods keyword page per_page)

/-- The `_get_rep_history_i2860` helper under its orchestrator `try`. -/
def repTierFetch (resp : TierResponse) (company_name : String) :
    Option RepHistoryResult :=
  match resp with
  | .failure => none
  | .badStatus => some { company_name, total_count := 0, items := [] }
  | .payload j => some (parse_rep_history_i2860 j company_name)

/-- The I2860 tier body of `get_representative_history`: fetch, keep only a
result with `total_count > 0`. -/
def repTierStep (resp : TierResponse) (company_name : String) :
    Option RepHistoryResult :=
  match repTierFetch resp company_name with
  | none => none
  | some result => if result.total_count > 0 then some result else none

/-- The second tier body of `get_representative_history`: look the company up
through the I1220 search (page 1, one row) and report its current
representative when that is non-empty. -/
def currentRepStep (resp : TierResponse) (company_name : String) :
    Option RepHistoryResult :=
  match companyTierFetch parse_food_safety_company_response resp 1 1 with
  | none => none
  | some companyResult =>
    match companyResult.items with
    | [] => none
    | first :: _ =>
      if first.representative ≠ "" then
        some { company_name, total_count := 1,
               items := [{ representative := first.representative,
                           change_date := first.license_date,
                           change_type := "현재 대표자" }] }
      else none

/-- `get_representative_history`: the I2860 change-history tier (gated on
`food_safety_api_key`), then a current-representative lookup through the
I1220 company search (not gated), then the static sample history. -/
def get_representative_history (hasKey : Bool)
    (i2860Resp i1220Resp : TierResponse) (company_name : String) :
    RepHistoryResult :=
  let t1 := if hasKey then repTierStep i2860Resp company_name else none
  let t2 := currentRepStep i1220Resp company_name
  (t1 <|> t2).getD (get_sample_rep_history company_name)

/-- The `_get_license_change_i2859` helper under its orchestrator `try`. -/
def licenseTierFetch (resp : TierResponse) (company_name : String) :
    Option LicenseChangeResult :=
  match resp with
  | .failure => none
  | .badStatus => some { company_name, total_count := 0, items := [] }
  | .payload j => some (parse_license_change_i2859 j company_name)

/-- The I2859 tier body of `get_license_change_history`: fetch, keep only a
result with `total_count > 0`. -/
def licenseTierStep (resp : TierResponse) (company_name : String) :
    Option LicenseChangeResult :=
  match licenseTierFetch resp company_name with
  | none => none
  | some result => if result.total_count > 0 then some result else none

/-- `get_license_change_history`: the single I2859 tier (gated on
`food_safety_api_key`), then a bare empty result — this operation has no
static fallback catalog. -/
def get_license_change_history (hasKey : Bool) (i2859Resp : TierResponse)
    (company_name : String) : LicenseChangeResult :=
  let t1 := if hasKey then licenseTierStep i2859Resp company_name else none
  t1.getD { company_name, total_count := 0, items := [] }

/-! ## Specification-side definitions

`claim_filter_matches` transcribes the specification's description of the
post-fetch filter word for word, to be compared with `filter_companies`;
`firstRep` expresses "first occurrence kept" for the representative-history
deduplication; `malformed_service_payload` captures the malformed-payload
categories named by the specification. -/

/-- The filter predicate exactly as the specification states it: a record is
kept iff (keyword empty, or a case-insensitive substring of the company
name) AND (region empty, or some comma-separated region token — stripped,
empty tokens discarded — a substring of address or region) AND
(business type empty, or a case-insensitive substring of the business-type
field). -/
def claim_filter_matches (keyword region business_type : String)
    (c : CompanyItem) : Bool :=
  (keyword == "" || pyIn (lowerStr keyword) (lowerStr c.company_name)) &&
  (region == "" ||
    (regionTokens region).any (fun r =>
      charsInfix r c.address.data || charsInfix r c.region.data)) &&
  (business_type == "" ||
    pyIn (lowerStr business_type) (lowerStr c.business_type))

/-- The amended filter predicate: as `claim_filter_matches`, except the
region dimension is a no-op whenever the region argument yields no non-empty
token (so also for comma- or whitespace-only arguments, not only for `""`). -/
def amended_filter_matches (keyword region business_type : String)
    (c : CompanyItem) : Bool :=
  (keyword == "" || pyIn (lowerStr keyword) (lowerStr c.company_name)) &&
  ((regionTokens region).isEmpty ||
    (regionTokens region).any (fun r =>
      charsInfix r c.address.data || charsInfix r c.region.data)) &&
  (business_type == "" ||
    pyIn (lowerStr business_type) (lowerStr c.business_type))

/-- The item the specification says survives deduplication for a given
representative name: the one built from the first row whose candidate name
is that name. -/
def firstRep : List JsonVal → String → Option RepHistoryItem
  | [], _ => none
  | row :: rest, n =>
    match rowRepFields? row with
    | none => none
    | some (repName, change_date, changeType) =>
      if repName = n then
        (rowStr? row "LCNS_NO").map (fun license_no =>
          { representative := repName, change_date,
            change_type := pyOrStr changeType "변경", license_no })
      else firstRep rest n

/-- The malformed-payload categories the specification names for a
foodsafetykorea-style parser expecting service key `svc`: a non-object
top-level value, a missing service entry, a service entry that is not an
object, or a `total_count` that `int(...)` rejects. -/
def malformed_service_payload (svc : String) (data : JsonVal) : Bool :=
  match data with
  | .obj fields =>
    match lookupField fields svc with
    | none => true
    | some (.obj sfields) =>
      match lookupField sfields "total_count" with
      | some v => (pyToInt? v).isNone
      | none => false
    | some _ => true
  | _ => true

/-! ## Helper lemmas -/

theorem charToNat_inj {a b : Char} (h : a.toNat = b.toNat) : a = b := by
  have h2 := congrArg Char.ofNat h
  rwa [Char.ofNat_toNat, Char.ofNat_toNat] at h2

theorem charsLe_total : ∀ a b : List Char, charsLe a b = true ∨ charsLe b a = true := by
  intro a
  induction a with
  | nil => intro b; left; rfl
  | cons x xs ih =>
    intro b
    cases b with
    | nil => right; rfl
    | cons y ys =>
      rcases Nat.lt_trichotomy x.toNat y.toNat with h | h | h
      · left; simp [charsLe, h]
      · have hxy : x = y := charToNat_inj h
        subst hxy
        rcases ih ys with h2 | h2
        · left; simp [charsLe, h2]
        · right; simp [charsLe, h2]
      · right; simp [charsLe, h]

theorem charsLe_trans :
    ∀ a b c : List Char, charsLe a b = true → charsLe b c = true →
      charsLe a c = true := by
  intro a
  induction a with
  | nil => intro b c _ _; rfl
  | cons x xs ih =>
    intro b c hab hbc
    cases b with
    | nil => simp [charsLe] at hab
    | cons y ys =>
      cases c with
      | nil => simp [charsLe] at hbc
      | cons z zs =>
        simp only [charsLe, Bool.or_eq_true, Bool.and_eq_true,
          decide_eq_true_eq, beq_iff_eq] at hab hbc ⊢
        rcases hab with h1 | ⟨he1, h1⟩
        · rcases hbc with h2 | ⟨he2, h2⟩
          · left; omega
          · subst he2; left; exact h1
        · subst he1
          rcases hbc with h2 | ⟨he2, h2⟩
          · left; exact h2
          · right; exact ⟨he2, ih ys zs h1 h2⟩

theorem pyStrLe_total (a b : String) : pyStrLe a b = true ∨ pyStrLe b a = true :=
  charsLe_total a.data b.data

theorem pyStrLe_trans {a b c : String} (h1 : pyStrLe a b = true)
    (h2 : pyStrLe b c = true) : pyStrLe a c = true :=
  charsLe_trans a.data b.data c.data h1 h2

theorem mem_insertDescBy {α : Type} (key : α → String) (x a : α) :
    ∀ l : List α, a ∈ insertDescBy key x l ↔ a = x ∨ a ∈ l := by
  intro l
  induction l with
  | nil => simp [insertDescBy]
  | cons y ys ih =>
    unfold insertDescBy
    by_cases hxy : pyStrLe (key y) (key x) = true
    · simp [hxy]
    · simp only [if_neg hxy, List.mem_cons, ih]
      tauto

theorem pairwise_insertDescBy {α : Type} (key : α → String) (x : α)
    {l : List α}
    (hl : l.Pairwise (fun a b => pyStrLe (key b) (key a) = true)) :
    (insertDescBy key x l).Pairwise
      (fun a b => pyStrLe (key b) (key a) = true) := by
  induction l with
  | nil => simp [insertDescBy]
  | cons y ys ih =>
    rw [List.pairwise_cons] at hl
    obtain ⟨hy, hys⟩ := hl
    unfold insertDescBy
    by_cases hxy : pyStrLe (key y) (key x) = true
    · rw [if_pos hxy, List.pairwise_cons]
      refine ⟨?_, List.pairwise_cons.mpr ⟨hy, hys⟩⟩
      intro z hz
      rcases List.mem_cons.mp hz with rfl | hz2
      · exact hxy
      · exact pyStrLe_trans (hy z hz2) hxy
    · rw [if_neg hxy, List.pairwise_cons]
      refine ⟨?_, ih hys⟩
      intro z hz
      rcases (mem_insertDescBy key x z (ys)).mp hz with rfl | hz2
      · rcases pyStrLe_total (key y) (key z) with h | h
        · exact absurd h hxy
        · exact h
      · exact hy z hz2

theorem pairwise_sortDescBy {α : Type} (key : α → String) :
    ∀ l : List α, (sortDescBy key l).Pairwise
      (fun a b => pyStrLe (key b) (key a) = true) := by
  intro l
  induction l with
  | nil => simp [sortDescBy]
  | cons x xs ih => exact pairwise_insertDescBy key x ih

theorem perm_insertDescBy {α : Type} (key : α → String) (x : α) :
    ∀ l : List α, (insertDescBy key x l).Perm (x :: l) := by
  intro l
  induction l with
  | nil => simp [insertDescBy]
  | cons y ys ih =>
    unfold insertDescBy
    by_cases hxy : pyStrLe (key y) (key x) = true
    · rw [if_pos hxy]
    · rw [if_neg hxy]
      exact (ih.cons y).trans (List.Perm.swap x y ys)

theorem perm_sortDescBy {α : Type} (key : α → String) :
    ∀ l : List α, (sortDescBy key l).Perm l := by
  intro l
  induction l with
  | nil => rfl
  | cons x xs ih =>
    exact (perm_insertDescBy key x (sortDescBy key xs)).trans (ih.cons x)

theorem repRows_spec :
    ∀ (rows : List JsonVal) (seen : List String) (out : List RepHistoryItem),
      repRows rows seen = some out →
      ((∀ x ∈ out, x.representative ≠ "" ∧ x.representative ∉ seen ∧
          firstRep rows x.representative = some x) ∧
        (out.map RepHistoryItem.representative).Nodup) := by
  intro rows
  induction rows with
  | nil =>
    intro seen out h
    simp only [repRows, Option.some.injEq] at h
    subst h
    simp
  | cons row rest ih =>
    intro seen out h
    simp only [repRows] at h
    rcases hf : rowRepFields? row with _ | ⟨n, d, t⟩
    · rw [hf] at h; simp at h
    · rw [hf] at h
      simp only [Option.bind_eq_bind, Option.some_bind] at h
      by_cases hcond : n ≠ "" ∧ n ∉ seen
      · rw [if_pos hcond] at h
        rcases hl : rowStr? row "LCNS_NO" with _ | lic
        · rw [hl] at h; simp at h
        · rw [hl] at h
          simp only [Option.bind_eq_bind, Option.some_bind] at h
          rcases ht : repRows rest (n :: seen) with _ | tail
          · rw [ht] at h; simp at h
          · rw [ht] at h
            simp only [Option.bind_eq_bind, Option.some_bind, Option.pure_def, Option.some.injEq] at h
            subst h
            obtain ⟨hmem, hnodup⟩ := ih (n :: seen) tail ht
            constructor
            · intro x hx
              rcases List.mem_cons.mp hx with rfl | hx2
              · refine ⟨hcond.1, hcond.2, ?_⟩
                simp only [firstRep, hf]
                simp [hl]
              · obtain ⟨hne, hnin, hfirst⟩ := hmem x hx2
                have hxn : ¬ (n = x.representative) := by
                  intro he
                  exact hnin (he ▸ List.mem_cons_self n seen)
                refine ⟨hne, fun hs => hnin (List.mem_cons_of_mem _ hs), ?_⟩
                simp only [firstRep, hf]
                rw [if_neg hxn]
                exact hfirst
            · simp only [List.map_cons, List.nodup_cons]
              constructor
              · intro hmm
                obtain ⟨y, hy, hyn⟩ := List.mem_map.mp hmm
                obtain ⟨_, hnin, _⟩ := hmem y hy
                exact hnin (hyn ▸ List.mem_cons_self n seen)
              · exact hnodup
      · rw [if_neg hcond] at h
        obtain ⟨hmem, hnodup⟩ := ih seen out h
        refine ⟨?_, hnodup⟩
        intro x hx
        obtain ⟨hne, hnin, hfirst⟩ := hmem x hx
        refine ⟨hne, hnin, ?_⟩
        simp only [firstRep, hf]
        have hxn : ¬ (n = x.representative) := by
          intro he
          subst he
          exact hcond ⟨hne, hnin⟩
        rw [if_neg hxn]
        exact hfirst

theorem dedupCompanyRows_names {build : JsonVal → String → Option CompanyItem}
    (hbuild : ∀ row name it, build row name = some it → it.company_name = name) :
    ∀ (rows : List JsonVal) (seen : List String) (out : List CompanyItem),
      dedupCompanyRows build rows seen = some out →
      ∀ x ∈ out, x.company_name ≠ "" := by
  intro rows
  induction rows with
  | nil =>
    intro seen out h x hx
    simp only [dedupCompanyRows, Option.some.injEq] at h
    subst h
    simp at hx
  | cons row rest ih =>
    intro seen out h x hx
    simp only [dedupCompanyRows] at h
    rcases hn : rowStr? row "BSSH_NM" with _ | name
    · rw [hn] at h; simp at h
    · rw [hn] at h
      simp only [Option.bind_eq_bind, Option.some_bind] at h
      by_cases hcond : name ≠ "" ∧ name ∉ seen
      · rw [if_pos hcond] at h
        rcases hb : build row name with _ | item
        · rw [hb] at h; simp at h
        · rw [hb] at h
          simp only [Option.bind_eq_bind, Option.some_bind] at h
          rcases ht : dedupCompanyRows build rest (name :: seen) with _ | tail
          · rw [ht] at h; simp at h
          · rw [ht] at h
            simp only [Option.bind_eq_bind, Option.some_bind, Option.pure_def, Option.some.injEq] at h
            subst h
            rcases List.mem_cons.mp hx with rfl | hx2
            · rw [hbuild row name x hb]
              exact hcond.1
            · exact ih (name :: seen) tail ht x hx2
      · rw [if_neg hcond] at h
        exact ih seen out h x hx

theorem dataGoKrCompanyRow_name :
    ∀ row name it, dataGoKrCompanyRow? row name = some it →
      it.company_name = name := by
  intro row name it h
  simp only [dataGoKrCompanyRow?, Option.bind_eq_bind, Option.some_bind, Option.bind_eq_some, Option.pure_def, Option.some.injEq] at h
  obtain ⟨v1, _, v2, _, v3, _, h⟩ := h
  split at h
  · simp only [Option.bind_eq_bind, Option.some_bind, Option.bind_eq_some, Option.pure_def, Option.some.injEq] at h
    obtain ⟨v4, _, hit⟩ := h
    rw [← hit]
  · injection h with h2
    rw [← h2]
theorem i2860CompanyRow_name :
    ∀ row name it, i2860CompanyRow? row name = some it →
      it.company_name = name := by
  intro row name it h
  simp only [i2860CompanyRow?, Option.bind_eq_bind, Option.some_bind, Option.bind_eq_some, Option.pure_def, Option.some.injEq] at h
  obtain ⟨v1, _, v2, _, v3, _, v4, _, hit⟩ := h
  rw [← hit]
theorem i1300CompanyRow_name :
    ∀ row name it, i1300CompanyRow? row name = some it →
      it.company_name = name := by
  intro row name it h
  simp only [i1300CompanyRow?, Option.bind_eq_bind, Option.some_bind, Option.bind_eq_some, Option.pure_def, Option.some.injEq] at h
  obtain ⟨v1, _, v2, _, v3, _, h⟩ := h
  split at h
  · simp only [Option.bind_eq_bind, Option.some_bind, Option.bind_eq_some, Option.pure_def, Option.some.injEq] at h
    obtain ⟨v4, _, v5, _, v6, _, hit⟩ := h
    rw [← hit]
  · simp only [Option.bind_eq_bind, Option.some_bind, Option.bind_eq_some, Option.pure_def, Option.some.injEq] at h
    obtain ⟨v5, _, v6, _, hit⟩ := h
    rw [← hit]

/-- When every consulted live tier of `search_companies` yields nothing, the
result is the static sample tier's. -/
theorem search_companies_fallback (hasKey : Bool)
    (lr hr ir : TierResponse) (kw region bt : String) (page pp : Nat)
    (h1 : bt = "축산" → hasKey = true →
      companyTierStep parse_livestock_company_response lr kw region bt page pp = none)
    (h2 : bt = "건강기능식품" → hasKey = true →
      companyTierStep parse_health_food_company_response hr kw region bt page pp = none)
    (h3 : hasKey = true →
      companyTierStep parse_food_safety_company_response ir kw region bt page pp = none) :
    search_companies hasKey lr hr ir kw region bt page pp
      = get_sample_companies kw region bt page pp := by
  have e1 : (if bt = "축산" ∧ hasKey = true then
      companyTierStep parse_livestock_company_response lr kw region bt page pp
      else none) = none := by
    split
    · next hc => exact h1 hc.1 hc.2
    · rfl
  have e2 : (if bt = "건강기능식품" ∧ hasKey = true then
      companyTierStep parse_health_food_company_response hr kw region bt page pp
      else none) = none := by
    split
    · next hc => exact h2 hc.1 hc.2
    · rfl
  have e3 : (if hasKey = true then
      companyTierStep parse_food_safety_company_response ir kw region bt page pp
      else none) = none := by
    split
    · next hc => exact h3 hc
    · rfl
  simp only [search_companies, e1, e2, e3, Option.none_orElse, Option.getD_none]

/-- When every live tier of `search_products_by_company` yields nothing, the
result is the static sample tier's. -/
theorem search_products_fallback (hasKey : Bool)
    (r1 r2 r3 r4 : TierResponse) (company : String) (page pp : Nat)
    (h1 : hasKey = true → foodTierStep parse_c002_product_response r1 page pp = none)
    (h2 : hasKey = true → foodTierStep parse_c003_product_response r2 page pp = none)
    (h3 : hasKey = true → foodTierStep parse_c006_product_response r3 page pp = none)
    (h4 : hasKey = true → foodTierStep parse_food_safety_product_response r4 page pp = none) :
    search_products_by_company hasKey r1 r2 r3 r4 company page pp
      = get_sample_products_by_company company page pp := by
  cases hasKey with
  | false => simp only [search_products_by_company, if_neg (Bool.false_ne_true),
      Option.none_orElse, Option.getD_none]
  | true =>
    simp only [search_products_by_company, if_pos rfl, h1 rfl, h2 rfl, h3 rfl,
      h4 rfl, ite_self, Option.none_orElse, Option.getD_none]

/-- When both live tiers of `search_foods` yield nothing, the result is the
static sample tier's. -/
theorem search_foods_fallback (hasKey1 hasKey2 : Bool)
    (r1 r2 : TierResponse) (kw : String) (page pp : Nat)
    (h1 : hasKey1 = true → foodTierStep parse_food_product_response r1 page pp = none)
    (h2 : hasKey2 = true → foodTierStep parse_food_safety_product_response r2 page pp = none) :
    search_foods hasKey1 hasKey2 r1 r2 kw page pp
      = get_sample_foods kw page pp := by
  have e1 : (if hasKey1 = true then
      foodTierStep parse_food_product_response r1 page pp else none) = none := by
    split
    · next hc => exact h1 hc
    · rfl
  have e2 : (if hasKey2 = true then
      foodTierStep parse_food_safety_product_response r2 page pp else none) = none := by
    split
    · next hc => exact h2 hc
    · rfl
  simp only [search_foods, e1, e2, Option.none_orElse, Option.getD_none]

/-- When both live tiers of `get_representative_history` yield nothing, the
result is the static sample history. -/
theorem rep_history_fallback (hasKey : Bool) (r1 r2 : TierResponse)
    (company : String)
    (h1 : hasKey = true → repTierStep r1 company = none)
    (h2 : currentRepStep r2 company = none) :
    get_representative_history hasKey r1 r2 company
      = get_sample_rep_history company := by
  have e1 : (if hasKey = true then repTierStep r1 company else none) = none := by
    split
    · next hc => exact h1 hc
    · rfl
  simp only [get_representative_history, e1, h2, Option.none_orElse,
    Option.getD_none]

/-- When the single live tier of `get_license_change_history` yields nothing,
the result is a bare empty result, not a static catalog's. -/
theorem license_change_fallback (hasKey : Bool) (r : TierResponse)
    (company : String)
    (h1 : hasKey = true → licenseTierStep r company = none) :
    get_license_change_history hasKey r company
      = { company_name := company, total_count := 0, items := [] } := by
  have e1 : (if hasKey = true then licenseTierStep r company else none) = none := by
    split
    · next hc => exact h1 hc
    · rfl
  simp only [get_license_change_history, e1, Option.getD_none]

/-- Pagination bounds of the static company tier. -/
theorem get_sample_companies_bounds (kw region bt : String) (page pp : Nat) :
    (get_sample_companies kw region bt page pp).items.length ≤ pp ∧
    ((get_sample_companies kw region bt page pp).items.length : Int)
      ≤ (get_sample_companies kw region bt page pp).total_count := by
  unfold get_sample_companies
  refine ⟨?_, ?_⟩
  · simp only [List.length_take, List.length_drop]
    omega
  · simp only [List.length_take, List.length_drop]
    have h : min pp ((sample_companies_filtered kw region bt).length - (page - 1) * pp)
        ≤ (sample_companies_filtered kw region bt).length := by omega
    exact_mod_cast h

/-- Pagination bounds of the static products-by-company tier. -/
theorem get_sample_products_bounds (company : String) (page pp : Nat) :
    (get_sample_products_by_company company page pp).items.length ≤ pp ∧
    ((get_sample_products_by_company company page pp).items.length : Int)
      ≤ (get_sample_products_by_company company page pp).total_count := by
  unfold get_sample_products_by_company
  refine ⟨?_, ?_⟩
  · simp only [List.length_take, List.length_drop]
    omega
  · simp only [List.length_take, List.length_drop]
    have h : min pp (((List.lookup company sample_products).getD []).length - (page - 1) * pp)
        ≤ ((List.lookup company sample_products).getD []).length := by omega
    exact_mod_cast h

/-- Pagination bounds of the static keyword food tier. -/
theorem get_sample_foods_bounds (kw : String) (page pp : Nat) :
    (get_sample_foods kw page pp).items.length ≤ pp ∧
    ((get_sample_foods kw page pp).items.length : Int)
      ≤ (get_sample_foods kw page pp).total_count := by
  unfold get_sample_foods
  refine ⟨?_, ?_⟩
  · simp only [List.length_take, List.length_drop]
    omega
  · simp only [List.length_take, List.length_drop]
    have h : min pp ((sample_foods_filtered kw).length - (page - 1) * pp)
        ≤ (sample_foods_filtered kw).length := by omega
    exact_mod_cast h

/-! ## Concrete payloads used in counterexamples and witnesses -/

/-- An I1220 reply with two retained rows (a provider may return more rows
than the requested window). -/
def i1220TwoRowPayload : JsonVal :=
  .obj [("I1220", .obj [("total_count", .str "2"),
    ("row", .arr [.obj [("BSSH_NM", .str "가나")],
                  .obj [("BSSH_NM", .str "다라")]])])]

/-- An I1220 reply whose single row has no `BSSH_NM` field. -/
def i1220EmptyNamePayload : JsonVal :=
  .obj [("I1220", .obj [("total_count", .str "1"),
    ("row", .arr [.obj [("LCNS_NO", .str "123")]])])]

/-- An I1220 reply whose single row matches no keyword `"젯"`. -/
def i1220OneRowPayload : JsonVal :=
  .obj [("I1220", .obj [("total_count", .str "1"),
    ("row", .arr [.obj [("BSSH_NM", .str "가나다")]])])]

/-- A successful data.go.kr product reply with one record. -/
def dataGoKrFoodPayload : JsonVal :=
  .obj [("body", .obj [("totalCount", .num 1),
    ("items", .arr [.obj [("PRDLST_NM", .str "제품에이")]])])]

/-- A successful I1250 product reply with one record. -/
def i1250FoodPayload : JsonVal :=
  .obj [("I1250", .obj [("total_count", .str "1"),
    ("row", .arr [.obj [("PRDLST_NM", .str "제품비")]])])]

/-- An I2860 change-history reply: three rows, dates out of order, one
representative name occurring twice. -/
def i2860HistoryPayload : JsonVal :=
  .obj [("I2860", .obj [("row", .arr [
    .obj [("PRSDNT_NM", .str "김일"), ("CHNG_DT", .str "2001-01-01")],
    .obj [("PRSDNT_NM", .str "박이"), ("CHNG_DT", .str "2020-05-05")],
    .obj [("PRSDNT_NM", .str "김일"), ("CHNG_DT", .str "2010-03-03")]])])]

/-! ## Claim theorems -/

/-- C1, counterexample: the claimed bound `len(items) <= per_page` fails on a
live tier.  With `per_page = 1`, an I1220 reply carrying two rows makes
`search_companies` return both rows — no live parser truncates its items to
`per_page` — so the result violates `len(items) <= result.per_page`. -/
theorem C1_counterexample :
    ¬ ((search_companies true .failure .failure (.payload i1220TwoRowPayload)
          "" "" "" 1 1).items.length
        ≤ (search_companies true .failure .failure (.payload i1220TwoRowPayload)
          "" "" "" 1 1).per_page) := by
  decide

/-- C1, amended: whenever every consulted live tier of `search_companies`,
`search_foods` and `search_products_by_company` fails or yields no retained
records — so the static sample tier answers — the result satisfies
`0 ≤ len(items) ≤ per_page` and `total_count ≥ len(items)`; a live tier that
returns more rows than requested can violate the `per_page` bound. -/
theorem C1_fallback_bounds :
    (∀ (hasKey : Bool) (lr hr ir : TierResponse) (kw region bt : String)
        (page pp : Nat),
      (bt = "축산" → hasKey = true →
        companyTierStep parse_livestock_company_response lr kw region bt page pp = none) →
      (bt = "건강기능식품" → hasKey = true →
        companyTierStep parse_health_food_company_response hr kw region bt page pp = none) →
      (hasKey = true →
        companyTierStep parse_food_safety_company_response ir kw region bt page pp = none) →
      ((0 : Int) ≤ ((search_companies hasKey lr hr ir kw region bt page pp).items.length : Int) ∧
        (search_companies hasKey lr hr ir kw region bt page pp).items.length ≤ pp ∧
        ((search_companies hasKey lr hr ir kw region bt page pp).items.length : Int)
          ≤ (search_companies hasKey lr hr ir kw region bt page pp).total_count)) ∧
    (∀ (hasKey1 hasKey2 : Bool) (r1 r2 : TierResponse) (kw : String)
        (page pp : Nat),
      (hasKey1 = true → foodTierStep parse_food_product_response r1 page pp = none) →
      (hasKey2 = true → foodTierStep parse_food_safety_product_response r2 page pp = none) →
      ((0 : Int) ≤ ((search_foods hasKey1 hasKey2 r1 r2 kw page pp).items.length : Int) ∧
        (search_foods hasKey1 hasKey2 r1 r2 kw page pp).items.length ≤ pp ∧
        ((search_foods hasKey1 hasKey2 r1 r2 kw page pp).items.length : Int)
          ≤ (search_foods hasKey1 hasKey2 r1 r2 kw page pp).total_count)) ∧
    (∀ (hasKey : Bool) (r1 r2 r3 r4 : TierResponse) (company : String)
        (page pp : Nat),
      (hasKey = true → foodTierStep parse_c002_product_response r1 page pp = none) →
      (hasKey = true → foodTierStep parse_c003_product_response r2 page pp = none) →
      (hasKey = true → foodTierStep parse_c006_product_response r3 page pp = none) →
      (hasKey = true → foodTierStep parse_food_safety_product_response r4 page pp = none) →
      ((0 : Int) ≤ ((search_products_by_company hasKey r1 r2 r3 r4 company page pp).items.length : Int) ∧
        (search_products_by_company hasKey r1 r2 r3 r4 company page pp).items.length ≤ pp ∧
        ((search_products_by_company hasKey r1 r2 r3 r4 company page pp).items.length : Int)
          ≤ (search_products_by_company hasKey r1 r2 r3 r4 company page pp).total_count)) := by
  refine ⟨?_, ?_, ?_⟩
  · intro hasKey lr hr ir kw region bt page pp h1 h2 h3
    rw [search_companies_fallback hasKey lr hr ir kw region bt page pp h1 h2 h3]
    have hb := get_sample_companies_bounds kw region bt page pp
    exact ⟨Int.natCast_nonneg _, hb.1, hb.2⟩
  · intro hasKey1 hasKey2 r1 r2 kw page pp h1 h2
    rw [search_foods_fallback hasKey1 hasKey2 r1 r2 kw page pp h1 h2]
    have hb := get_sample_foods_bounds kw page pp
    exact ⟨Int.natCast_nonneg _, hb.1, hb.2⟩
  · intro hasKey r1 r2 r3 r4 company page pp h1 h2 h3 h4
    rw [search_products_fallback hasKey r1 r2 r3 r4 company page pp h1 h2 h3 h4]
    have hb := get_sample_products_bounds company page pp
    exact ⟨Int.natCast_nonneg _, hb.1, hb.2⟩

/-- Witness for the amended C1 bounds at a concrete fallback call. -/
theorem C1_fallback_bounds_witness :
    (0 : Int) ≤ ((search_companies true .failure .failure .failure "농심" "" "" 1 5).items.length : Int) ∧
    (search_companies true .failure .failure .failure "농심" "" "" 1 5).items.length ≤ 5 ∧
    ((search_companies true .failure .failure .failure "농심" "" "" 1 5).items.length : Int)
      ≤ (search_companies true .failure .failure .failure "농심" "" "" 1 5).total_count :=
  C1_fallback_bounds.1 true .failure .failure .failure "농심" "" "" 1 5
    (fun h _ => absurd h (by decide)) (fun h _ => absurd h (by decide))
    (fun _ => rfl)

/-- C2: when every consulted live tier of `search_companies` fails or yields
no retained records, the operation returns exactly the static sample
provider's result for the same arguments (same filtering, pagination and
total count); the model is a total function, so no exception reaches the
caller. -/
theorem C2_all_tiers_fail_sample (hasKey : Bool)
    (lr hr ir : TierResponse) (kw region bt : String) (page pp : Nat)
    (h1 : bt = "축산" → hasKey = true →
      companyTierStep parse_livestock_company_response lr kw region bt page pp = none)
    (h2 : bt = "건강기능식품" → hasKey = true →
      companyTierStep parse_health_food_company_response hr kw region bt page pp = none)
    (h3 : hasKey = true →
      companyTierStep parse_food_safety_company_response ir kw region bt page pp = none) :
    search_companies hasKey lr hr ir kw region bt page pp
      = get_sample_companies kw region bt page pp :=
  search_companies_fallback hasKey lr hr ir kw region bt page pp h1 h2 h3

/-- Witness for C2: all live tiers raise, keyword search falls back to the
sample catalog. -/
theorem C2_all_tiers_fail_sample_witness :
    search_companies true .failure .failure .failure "농심" "서울" "식품" 1 10
      = get_sample_companies "농심" "서울" "식품" 1 10 :=
  C2_all_tiers_fail_sample true .failure .failure .failure "농심" "서울" "식품" 1 10
    (fun h _ => absurd h (by decide)) (fun h _ => absurd h (by decide))
    (fun _ => rfl)

/-- The tier body of `search_companies` yields nothing when the raw result is
non-empty but filtering empties it. -/
theorem companyTierStep_payload_none
    (parse : JsonVal → Nat → Nat → CompanySearchResult) (j : JsonVal)
    (kw region bt : String) (page pp : Nat)
    (h1 : (parse j page pp).total_count > 0)
    (h2 : (filter_companies (parse j page pp) region bt kw).total_count = 0) :
    companyTierStep parse (.payload j) kw region bt page pp = none := by
  have hfetch : companyTierFetch parse (.payload j) page pp
      = some (parse j page pp) := rfl
  simp only [companyTierStep, hfetch, if_pos h1, h2]
  simp

/-- C7: in `search_companies`, a tier whose raw result is non-empty
(`total_count > 0`) but whose post-fetch filtered result is empty is not
returned; the orchestrator behaves exactly as if that tier had failed,
proceeding to the next configured tier and ultimately the static sample
provider (the fallback equality of C2). -/
theorem C7_filtered_empty_skips_tier :
    (∀ (hasKey : Bool) (j : JsonVal) (hr ir : TierResponse)
        (kw region bt : String) (page pp : Nat),
      (parse_livestock_company_response j page pp).total_count > 0 →
      (filter_companies (parse_livestock_company_response j page pp) region bt kw).total_count = 0 →
      search_companies hasKey (.payload j) hr ir kw region bt page pp
        = search_companies hasKey .failure hr ir kw region bt page pp) ∧
    (∀ (hasKey : Bool) (lr : TierResponse) (j : JsonVal) (ir : TierResponse)
        (kw region bt : String) (page pp : Nat),
      (parse_health_food_company_response j page pp).total_count > 0 →
      (filter_companies (parse_health_food_company_response j page pp) region bt kw).total_count = 0 →
      search_companies hasKey lr (.payload j) ir kw region bt page pp
        = search_companies hasKey lr .failure ir kw region bt page pp) ∧
    (∀ (hasKey : Bool) (lr hr : TierResponse) (j : JsonVal)
        (kw region bt : String) (page pp : Nat),
      (parse_food_safety_company_response j page pp).total_count > 0 →
      (filter_companies (parse_food_safety_company_response j page pp) region bt kw).total_count = 0 →
      search_companies hasKey lr hr (.payload j) kw region bt page pp
        = search_companies hasKey lr hr .failure kw region bt page pp) := by
  refine ⟨?_, ?_, ?_⟩
  · intro hasKey j hr ir kw region bt page pp h1 h2
    have hstep := companyTierStep_payload_none
      parse_livestock_company_response j kw region bt page pp h1 h2
    have hfail : companyTierStep parse_livestock_company_response .failure
        kw region bt page pp = none := rfl
    simp only [search_companies, hstep, hfail]
  · intro hasKey lr j ir kw region bt page pp h1 h2
    have hstep := companyTierStep_payload_none
      parse_health_food_company_response j kw region bt page pp h1 h2
    have hfail : companyTierStep parse_health_food_company_response .failure
        kw region bt page pp = none := rfl
    simp only [search_companies, hstep, hfail]
  · intro hasKey lr hr j kw region bt page pp h1 h2
    have hstep := companyTierStep_payload_none
      parse_food_safety_company_response j kw region bt page pp h1 h2
    have hfail : companyTierStep parse_food_safety_company_response .failure
        kw region bt page pp = none := rfl
    simp only [search_companies, hstep, hfail]

/-- Witness for C7: an I1220 reply with one raw row that the keyword filter
removes behaves exactly like a failed tier. -/
theorem C7_filtered_empty_skips_tier_witness :
    search_companies true .failure .failure (.payload i1220OneRowPayload)
        "젯" "" "" 1 10
      = search_companies true .failure .failure .failure "젯" "" "" 1 10 :=
  C7_filtered_empty_skips_tier.2.2 true .failure .failure i1220OneRowPayload
    "젯" "" "" 1 10 (by decide) (by decide)

/-- C3, counterexample: `search_foods` does not merge providers.  Both live
providers succeed with non-empty record lists, yet the returned result is the
first provider's alone — the second provider's records are absent. -/
theorem C3_counterexample :
    (parse_food_product_response dataGoKrFoodPayload 1 10).total_count > 0 ∧
    (parse_food_product_response dataGoKrFoodPayload 1 10).items ≠ [] ∧
    (parse_food_safety_product_response i1250FoodPayload 1 10).total_count > 0 ∧
    (parse_food_safety_product_response i1250FoodPayload 1 10).items ≠ [] ∧
    (∀ x ∈ (parse_food_safety_product_response i1250FoodPayload 1 10).items,
      x ∉ (search_foods true true (.payload dataGoKrFoodPayload)
            (.payload i1250FoodPayload) "제품" 1 10).items) := by
  decide

/-- C3, amended: `search_foods` consults its providers sequentially — the
data.go.kr tier's result is returned alone whenever it reports
`total_count > 0`, otherwise the I1250 tier's result whenever that does, and
the static sample data only when both tiers fail or report zero; no merging
of several providers occurs. -/
theorem C3_sequential_tiers :
    (∀ (hasKey2 : Bool) (r1 r2 : TierResponse) (kw : String) (page pp : Nat)
        (r : FoodSearchResult),
      foodTierStep parse_food_product_response r1 page pp = some r →
      search_foods true hasKey2 r1 r2 kw page pp = r) ∧
    (∀ (hasKey1 : Bool) (r1 r2 : TierResponse) (kw : String) (page pp : Nat)
        (r : FoodSearchResult),
      (hasKey1 = true → foodTierStep parse_food_product_response r1 page pp = none) →
      foodTierStep parse_food_safety_product_response r2 page pp = some r →
      search_foods hasKey1 true r1 r2 kw page pp = r) ∧
    (∀ (hasKey1 hasKey2 : Bool) (r1 r2 : TierResponse) (kw : String)
        (page pp : Nat),
      (hasKey1 = true → foodTierStep parse_food_product_response r1 page pp = none) →
      (hasKey2 = true → foodTierStep parse_food_safety_product_response r2 page pp = none) →
      search_foods hasKey1 hasKey2 r1 r2 kw page pp = get_sample_foods kw page pp) := by
  refine ⟨?_, ?_, ?_⟩
  · intro hasKey2 r1 r2 kw page pp r h
    simp only [search_foods, if_pos rfl, if_true, h, Option.some_orElse,
      Option.getD_some]
  · intro hasKey1 r1 r2 kw page pp r h1 h2
    have e1 : (if hasKey1 = true then
        foodTierStep parse_food_product_response r1 page pp else none) = none := by
      split
      · next hc => exact h1 hc
      · rfl
    simp only [search_foods, if_pos rfl, if_true, e1, h2, Option.none_orElse,
      Option.getD_some]
  · intro hasKey1 hasKey2 r1 r2 kw page pp h1 h2
    exact search_foods_fallback hasKey1 hasKey2 r1 r2 kw page pp h1 h2

/-- Witness for the amended C3: a successful first tier is returned alone. -/
theorem C3_sequential_tiers_witness :
    search_foods true true (.payload dataGoKrFoodPayload)
        (.payload i1250FoodPayload) "제품" 1 10
      = parse_food_product_response dataGoKrFoodPayload 1 10 :=
  C3_sequential_tiers.1 true (.payload dataGoKrFoodPayload)
    (.payload i1250FoodPayload) "제품" 1 10
    (parse_food_product_response dataGoKrFoodPayload 1 10) (by decide)

/-- C4, counterexample: `get_license_change_history` has no static fallback
tier.  With its single live tier failing, the caller receives the empty
result even for `"삼양식품(주)"` — a company the service's static catalogs do
cover (non-empty sample representative history, a sample company entry) — so
"every operation consults the static fallback provider as its terminal tier"
and "empty only when the static catalog has no matching entry" both fail at
this operation. -/
theorem C4_counterexample :
    get_license_change_history true .failure "삼양식품(주)"
      = { company_name := "삼양식품(주)", total_count := 0, items := [] } ∧
    (get_sample_rep_history "삼양식품(주)").items ≠ [] ∧
    sample_companies_filtered "삼양식품(주)" "" "" ≠ [] := by
  decide

/-- C4, amended: the three search operations and the representative-history
operation consult the static sample provider as their terminal tier — when
every consulted live tier fails or yields nothing, the result is exactly the
static data's — while `get_license_change_history` instead returns a bare
empty result; every operation is total, so the caller never receives an
error. -/
theorem C4_terminal_tiers :
    (∀ (hasKey : Bool) (lr hr ir : TierResponse) (kw region bt : String)
        (page pp : Nat),
      (bt = "축산" → hasKey = true →
        companyTierStep parse_livestock_company_response lr kw region bt page pp = none) →
      (bt = "건강기능식품" → hasKey = true →
        companyTierStep parse_health_food_company_response hr kw region bt page pp = none) →
      (hasKey = true →
        companyTierStep parse_food_safety_company_response ir kw region bt page pp = none) →
      search_companies hasKey lr hr ir kw region bt page pp
        = get_sample_companies kw region bt page pp) ∧
    (∀ (hasKey1 hasKey2 : Bool) (r1 r2 : TierResponse) (kw : String)
        (page pp : Nat),
      (hasKey1 = true → foodTierStep parse_food_product_response r1 page pp = none) →
      (hasKey2 = true → foodTierStep parse_food_safety_product_response r2 page pp = none) →
      search_foods hasKey1 hasKey2 r1 r2 kw page pp
        = get_sample_foods kw page pp) ∧
    (∀ (hasKey : Bool) (r1 r2 r3 r4 : TierResponse) (company : String)
        (page pp : Nat),
      (hasKey = true → foodTierStep parse_c002_product_response r1 page pp = none) →
      (hasKey = true → foodTierStep parse_c003_product_response r2 page pp = none) →
      (hasKey = true → foodTierStep parse_c006_product_response r3 page pp = none) →
      (hasKey = true → foodTierStep parse_food_safety_product_response r4 page pp = none) →
      search_products_by_company hasKey r1 r2 r3 r4 company page pp
        = get_sample_products_by_company company page pp) ∧
    (∀ (hasKey : Bool) (r1 r2 : TierResponse) (company : String),
      (hasKey = true → repTierStep r1 company = none) →
      currentRepStep r2 company = none →
      get_representative_history hasKey r1 r2 company
        = get_sample_rep_history company) ∧
    (∀ (hasKey : Bool) (r : TierResponse) (company : String),
      (hasKey = true → licenseTierStep r company = none) →
      get_license_change_history hasKey r company
        = { company_name := company, total_count := 0, items := [] }) := by
  refine ⟨?_, ?_, ?_, ?_, ?_⟩
  · exact search_companies_fallback
  · exact search_foods_fallback
  · exact search_products_fallback
  · exact rep_history_fallback
  · exact license_change_fallback

/-- Witness for the amended C4 at the representative-history operation. -/
theorem C4_terminal_tiers_witness :
    get_representative_history true .failure .failure "오뚜기(주)"
      = get_sample_rep_history "오뚜기(주)" :=
  C4_terminal_tiers.2.2.2.1 true .failure .failure "오뚜기(주)"
    (fun _ => rfl) rfl

/-- C5, counterexample: the I1220 company parser keeps rows whose `BSSH_NM`
is absent — the retained `CompanyItem` has an empty `company_name`. -/
theorem C5_counterexample :
    ¬ (∀ it ∈ (parse_food_safety_company_response i1220EmptyNamePayload 1 10).items,
        it.company_name ≠ "") := by
  decide

/-- C5, amended: the three deduplicating company parsers (data.go.kr, I2860,
I1300) retain only records with a non-empty `company_name` — rows whose name
field is absent or empty are dropped — while the I1220 parser
(`_parse_food_safety_company_response`) retains every row, empty names
included. -/
theorem C5_dedup_parsers_nonempty_name :
    (∀ (data : JsonVal) (page pp : Nat) (it : CompanyItem),
      it ∈ (parse_company_response data page pp).items → it.company_name ≠ "") ∧
    (∀ (data : JsonVal) (page pp : Nat) (it : CompanyItem),
      it ∈ (parse_health_food_company_response data page pp).items → it.company_name ≠ "") ∧
    (∀ (data : JsonVal) (page pp : Nat) (it : CompanyItem),
      it ∈ (parse_livestock_company_response data page pp).items → it.company_name ≠ "") := by
  refine ⟨?_, ?_, ?_⟩
  · intro data page pp it hmem
    simp only [parse_company_response] at hmem
    split at hmem
    · next items heq =>
      simp only at hmem
      have hmem2 : it ∈ items := List.take_subset _ _ hmem
      simp only [Option.bind_eq_bind, Option.some_bind, Option.bind_eq_some] at heq
      obtain ⟨body, _, itemsVal, _, hif⟩ := heq
      split at hif
      · simp only [Option.bind_eq_bind, Option.bind_eq_some] at hif
        obtain ⟨rows, _, hd⟩ := hif
        exact dedupCompanyRows_names dataGoKrCompanyRow_name rows [] items hd it hmem2
      · exact absurd hif (by simp)
    · next heq =>
      simp only at hmem
      simp at hmem
  · intro data page pp it hmem
    simp only [parse_health_food_company_response] at hmem
    split at hmem
    · next items heq =>
      simp only at hmem
      simp only [Option.bind_eq_bind, Option.some_bind, Option.bind_eq_some] at heq
      obtain ⟨⟨tc, rows⟩, _, hd⟩ := heq
      exact dedupCompanyRows_names i2860CompanyRow_name rows [] items hd it hmem
    · next heq =>
      simp only at hmem
      simp at hmem
  · intro data page pp it hmem
    simp only [parse_livestock_company_response] at hmem
    split at hmem
    · next tc items heq =>
      simp only at hmem
      simp only [Option.bind_eq_bind, Option.some_bind, Option.bind_eq_some,
        Option.pure_def, Option.some.injEq] at heq
      obtain ⟨⟨tc0, rows⟩, _, items0, hd, hpair⟩ := heq
      have hitems : items0 = items := by
        have := congrArg Prod.snd hpair
        simpa using this
      rw [← hitems] at hmem
      exact dedupCompanyRows_names i1300CompanyRow_name rows [] items0 hd it hmem
    · next heq =>
      simp only at hmem
      simp at hmem

/-- Witness for the amended C5: a payload with an empty-name row and a named
row retains only the named one. -/
theorem C5_dedup_parsers_nonempty_name_witness :
    ("농심" : String) ≠ "" :=
  C5_dedup_parsers_nonempty_name.2.1
    (.obj [("I2860", .obj [("total_count", .str "2"),
      ("row", .arr [.obj [("BSSH_NM", .str "")],
                    .obj [("BSSH_NM", .str "농심")]])])])
    1 10
    { company_name := "농심", license_no := "", business_type := "건강기능식품",
      address := "", phone := "", status := "운영", api_source := "식품안전나라" }
    (by decide)

theorem regionTokens_empty : regionTokens "" = [] := rfl

/-- A record used to probe the region filter: no comma and no whitespace in
any field. -/
def plainCompany : CompanyItem := { company_name := "가나다", address := "서울특별시" }

/-- C6, counterexample: for the region argument `" , "` — non-empty, but with
no non-empty token — the code skips the region filter and keeps the record,
while the claim's predicate (region empty, or some token matches) excludes
it: the claimed membership equivalence fails. -/
theorem C6_counterexample :
    plainCompany ∈ (filter_companies
        { total_count := 1, page := 1, per_page := 10, items := [plainCompany] }
        " , " "" "").items ∧
    claim_filter_matches "" " , " "" plainCompany = false := by
  decide

/-- C6, amended: a company record survives `_filter_companies` exactly when
it satisfies the conjunction of the keyword, region and business-type
predicates, where the region dimension is a no-op whenever the region
argument yields no non-empty comma-separated token (in particular when it is
empty). -/
theorem C6_filter_characterization (result : CompanySearchResult)
    (keyword region business_type : String) (c : CompanyItem) :
    c ∈ (filter_companies result region business_type keyword).items ↔
      (c ∈ result.items ∧
        amended_filter_matches keyword region business_type c = true) := by
  by_cases hk : keyword = "" <;> by_cases hr : region = "" <;>
    by_cases hb : business_type = "" <;>
    by_cases hrt : regionTokens region = [] <;>
    simp_all [filter_companies, amended_filter_matches, regionTokens_empty,
      List.mem_filter, List.isEmpty_iff, and_assoc] <;>
    aesop

/-- C8: representative-history items are sorted by `change_date` descending
with each representative name occurring at most once — the retained item for
a name being built from the first row carrying that name — and
license-change items are sorted by `change_date` descending. -/
theorem C8_sorted_dedup :
    (∀ (data : JsonVal) (company : String),
      (parse_rep_history_i2860 data company).items.Pairwise
        (fun a b => pyStrLe b.change_date a.change_date = true) ∧
      ((parse_rep_history_i2860 data company).items.map
        RepHistoryItem.representative).Nodup ∧
      (∀ x ∈ (parse_rep_history_i2860 data company).items, ∀ rows,
        i2860HistoryRows? data = some rows →
        firstRep rows x.representative = some x)) ∧
    (∀ (data : JsonVal) (company : String),
      (parse_license_change_i2859 data company).items.Pairwise
        (fun a b => pyStrLe b.change_date a.change_date = true)) := by
  refine ⟨?_, ?_⟩
  · intro data company
    simp only [parse_rep_history_i2860]
    split
    · next historyItems heq =>
      simp only [Option.bind_eq_bind, Option.bind_eq_some] at heq
      obtain ⟨rows0, hrows0, hrep⟩ := heq
      have hspec := repRows_spec rows0 [] historyItems hrep
      refine ⟨?_, ?_, ?_⟩
      · exact pairwise_sortDescBy RepHistoryItem.change_date historyItems
      · have hperm : ((sortDescBy RepHistoryItem.change_date historyItems).map
            RepHistoryItem.representative).Perm
            (historyItems.map RepHistoryItem.representative) :=
          (perm_sortDescBy RepHistoryItem.change_date historyItems).map _
        exact hperm.nodup_iff.mpr hspec.2
      · intro x hx rows hrows
        have hx2 : x ∈ historyItems :=
          ((perm_sortDescBy RepHistoryItem.change_date historyItems).mem_iff).mp hx
        rw [hrows0] at hrows
        injection hrows with hrows
        subst hrows
        exact (hspec.1 x hx2).2.2
    · next heq =>
      simp
  · intro data company
    simp only [parse_license_change_i2859]
    split
    · next tc items heq =>
      exact pairwise_sortDescBy LicenseChangeItem.change_date items
    · next heq =>
      simp

/-- Witness for C8: the duplicated representative keeps its first row (date
2001-01-01, not the later 2010 row). -/
theorem C8_sorted_dedup_witness :
    firstRep [
      .obj [("PRSDNT_NM", .str "김일"), ("CHNG_DT", .str "2001-01-01")],
      .obj [("PRSDNT_NM", .str "박이"), ("CHNG_DT", .str "2020-05-05")],
      .obj [("PRSDNT_NM", .str "김일"), ("CHNG_DT", .str "2010-03-03")]]
      "김일"
      = some { representative := "김일", change_date := "2001-01-01",
               change_type := "변경", license_no := "" } :=
  (C8_sorted_dedup.1 i2860HistoryPayload "회사").2.2
    { representative := "김일", change_date := "2001-01-01",
      change_type := "변경", license_no := "" }
    (by decide)
    [.obj [("PRSDNT_NM", .str "김일"), ("CHNG_DT", .str "2001-01-01")],
     .obj [("PRSDNT_NM", .str "박이"), ("CHNG_DT", .str "2020-05-05")],
     .obj [("PRSDNT_NM", .str "김일"), ("CHNG_DT", .str "2010-03-03")]]
    rfl

/-- C9: in the static tiers, a page window starting at or beyond the end of
the non-empty filtered collection yields an empty `items` list together with
the unchanged, non-zero post-filter `total_count`; no upper bound on `page`
is enforced. -/
theorem C9_page_beyond_end :
    (∀ (kw region bt : String) (page pp : Nat),
      0 < (sample_companies_filtered kw region bt).length →
      (sample_companies_filtered kw region bt).length ≤ (page - 1) * pp →
      ((get_sample_companies kw region bt page pp).items = [] ∧
        (get_sample_companies kw region bt page pp).total_count
          = ((sample_companies_filtered kw region bt).length : Int) ∧
        (get_sample_companies kw region bt page pp).total_count ≠ 0)) ∧
    (∀ (company : String) (page pp : Nat),
      0 < ((List.lookup company sample_products).getD []).length →
      ((List.lookup company sample_products).getD []).length ≤ (page - 1) * pp →
      ((get_sample_products_by_company company page pp).items = [] ∧
        (get_sample_products_by_company company page pp).total_count
          = (((List.lookup company sample_products).getD []).length : Int) ∧
        (get_sample_products_by_company company page pp).total_count ≠ 0)) := by
  refine ⟨?_, ?_⟩
  · intro kw region bt page pp h0 hbeyond
    refine ⟨?_, rfl, ?_⟩
    · show ((sample_companies_filtered kw region bt).drop ((page - 1) * pp)).take pp = []
      rw [List.drop_eq_nil_of_le hbeyond]
      exact List.take_nil
    · show ((sample_companies_filtered kw region bt).length : Int) ≠ 0
      exact_mod_cast Nat.pos_iff_ne_zero.mp h0
  · intro company page pp h0 hbeyond
    refine ⟨?_, rfl, ?_⟩
    · show (((List.lookup company sample_products).getD []).drop ((page - 1) * pp)).take pp = []
      rw [List.drop_eq_nil_of_le hbeyond]
      exact List.take_nil
    · show (((List.lookup company sample_products).getD []).length : Int) ≠ 0
      exact_mod_cast Nat.pos_iff_ne_zero.mp h0

/-- Witness for C9: one matching company, page 2 of 5 per page. -/
theorem C9_page_beyond_end_witness :
    (get_sample_companies "농심" "" "" 2 5).items = [] ∧
    (get_sample_companies "농심" "" "" 2 5).total_count
      = ((sample_companies_filtered "농심" "" "").length : Int) ∧
    (get_sample_companies "농심" "" "" 2 5).total_count ≠ 0 :=
  C9_page_beyond_end.1 "농심" "" "" 2 5 (by decide) (by decide)

/-- A malformed foodsafetykorea payload makes the shared envelope fail. -/
theorem malformed_envelope_none (svc : String) (data : JsonVal)
    (h : malformed_service_payload svc data = true) :
    fskEnvelope svc data = none := by
  cases data with
  | obj fields =>
    simp only [malformed_service_payload] at h
    rcases hf : lookupField fields svc with _ | v
    · have h1 : dictGet? (.obj fields) svc (.obj []) = some (.obj []) := by
        simp [dictGet?, hf]
      simp only [fskEnvelope, h1, Option.bind_eq_bind, Option.some_bind]
      rfl
    · rw [hf] at h
      have h1 : dictGet? (.obj fields) svc (.obj []) = some v := by
        simp [dictGet?, hf]
      rcases v with _ | b | n | s | xs | sfields
      case obj =>
        dsimp only at h
        rcases ht : lookupField sfields "total_count" with _ | w
        · rw [ht] at h
          exact absurd h (by simp)
        · rw [ht] at h
          have hw : pyToInt? w = none := Option.isNone_iff_eq_none.mp h
          have h2 : dictGet? (.obj sfields) "total_count" (.str "0") = some w := by
            simp [dictGet?, ht]
          simp [fskEnvelope, h1, h2, hw, Option.bind_eq_bind, Option.some_bind,
            Option.none_bind]
      all_goals simp only [fskEnvelope, h1, Option.bind_eq_bind, Option.some_bind]
      all_goals rfl
  | null => rfl
  | bool b => rfl
  | num n => rfl
  | str s => rfl
  | arr xs => rfl

/-- C10: the cited response parsers are total and collapse the
specification's malformed-payload categories (wrong top-level type, missing
service key, non-object service entry, non-numeric `total_count`) to the
well-formed empty result with `total_count = 0` and `items = []`; a single
row object instead of a row list is normalized to a one-element list and
parsed identically. -/
theorem C10_parser_totality :
    (∀ (data : JsonVal) (company : String),
      malformed_service_payload "I2859" data = true →
      parse_license_change_i2859 data company
        = { company_name := company, total_count := 0, items := [] }) ∧
    (∀ (data : JsonVal) (page pp : Nat),
      malformed_service_payload "C002" data = true →
      parse_c002_product_response data page pp
        = { total_count := 0, page, per_page := pp, items := [] }) ∧
    (∀ (data : JsonVal) (page pp : Nat),
      malformed_service_payload "I1250" data = true →
      parse_food_safety_product_response data page pp
        = { total_count := 0, page, per_page := pp, items := [] }) ∧
    (∀ (tc : JsonVal) (f : List (String × JsonVal)) (page pp : Nat),
      f ≠ [] →
      parse_food_safety_product_response
          (.obj [("I1250", .obj [("total_count", tc), ("row", .obj f)])]) page pp
        = parse_food_safety_product_response
          (.obj [("I1250", .obj [("total_count", tc), ("row", .arr [.obj f])])]) page pp) := by
  refine ⟨?_, ?_, ?_, ?_⟩
  · intro data company h
    have henv := malformed_envelope_none "I2859" data h
    simp [parse_license_change_i2859, henv]
  · intro data page pp h
    have henv := malformed_envelope_none "C002" data h
    simp [parse_c002_product_response, henv]
  · intro data page pp h
    have henv := malformed_envelope_none "I1250" data h
    simp [parse_food_safety_product_response, henv]
  · intro tc f page pp hf
    cases f with
    | nil => exact absurd rfl hf
    | cons p ps => rfl

/-- Witness for C10: a bare string payload parses to the empty result. -/
theorem C10_parser_totality_witness :
    parse_license_change_i2859 (.str "oops") "회사"
      = { company_name := "회사", total_count := 0, items := [] } :=
  C10_parser_totality.1 (.str "oops") "회사" (by decide)
